import Mathlib

/-!
Shallow embedding of the trip lifecycle engine of this repository:
`sim/src/trips.rs` (TripManager, Trip, Person) and `sim/src/make/spawner.rs`
(TripSpawner, TripSpec), together with a Scheduler model taken from the
specification (the scheduler source is not part of the embedded tree).

Conventions of the embedding:
- Rust `panic!` / failed `assert!` / `unwrap()` on `None` are modelled by an
  `Option` result; a `none` result stands for a process-terminating panic.
- `BTreeMap<AgentID, TripID>` is modelled as an association list with unique
  keys; only lookup, insert, remove and counting are observed by the code.
- External collaborators (the map, pathfinding, parking, transit state) are
  bundled into a `World` of function-valued fields; the embedded code only
  calls them, exactly where the source does.
- Distances are integers, times are naturals, `MapPath` and `Router` values are
  opaque tokens produced by the world.
-/

abbrev BuildingID := Nat

abbrev IntersectionID := Nat

abbrev LaneID := Nat

abbrev BusStopID := Nat

abbrev BusRouteID := Nat

abbrev PersonID := Nat

abbrev TripID := Nat

abbrev PedestrianID := Nat

abbrev Distance := Int

abbrev Speed := Nat

abbrev Time := Nat

abbrev MapPath := Nat

abbrev Router := Nat

inductive VehicleType
  | Car
  | Bus
  | Bike
deriving DecidableEq, Repr

/-- `CarID(pub usize, pub VehicleType)` from `sim/src/lib.rs`. -/
structure CarID where
  num : Nat
  vtype : VehicleType
deriving DecidableEq, Repr

inductive AgentID
  | Car (id : CarID)
  | Pedestrian (id : PedestrianID)
deriving DecidableEq, Repr

/-- A `map_model::Position`: a lane plus a distance along it. -/
structure Position where
  lane : LaneID
  dist_along : Distance
deriving DecidableEq, Repr

inductive ParkingSpot
  | Onstreet (lane : LaneID) (idx : Nat)
  | Offstreet (bldg : BuildingID) (idx : Nat)
deriving DecidableEq, Repr

structure Vehicle where
  id : CarID
  owner : Option BuildingID
  vehicle_type : VehicleType
  length : Distance
  max_speed : Option Speed
deriving DecidableEq, Repr

structure VehicleSpec where
  vehicle_type : VehicleType
  length : Distance
  max_speed : Option Speed
deriving DecidableEq, Repr

def VehicleSpec.make (spec : VehicleSpec) (id : CarID) (owner : Option BuildingID) : Vehicle :=
  { id := id, owner := owner, vehicle_type := spec.vehicle_type, length := spec.length,
    max_speed := spec.max_speed }

structure ParkedCar where
  vehicle : Vehicle
  spot : ParkingSpot
deriving DecidableEq, Repr

namespace Trips

inductive DrivingGoal
  | ParkNear (b : BuildingID)
  | Border (i : IntersectionID) (l : LaneID)
deriving DecidableEq, Repr

inductive SidewalkPOI
  | ParkingSpot (spot : ParkingSpot)
  | DeferredParkingSpot (b : BuildingID) (goal : DrivingGoal)
  | Building (b : BuildingID)
  | BusStop (stop : BusStopID)
  | Border (i : IntersectionID)
  | BikeRack (pos : Position)
  | SuddenlyAppear
deriving DecidableEq, Repr

structure SidewalkSpot where
  connection : SidewalkPOI
  sidewalk_pos : Position
deriving DecidableEq, Repr

inductive TripLeg
  | Walk (ped : PedestrianID) (speed : Speed) (walk_to : SidewalkSpot)
  | Drive (vehicle : Vehicle) (goal : DrivingGoal)
  | RideBus (ped : PedestrianID) (route : BusRouteID) (stop2 : BusStopID)
  | ServeBusRoute (car : CarID) (route : BusRouteID)
deriving DecidableEq, Repr

inductive TripMode
  | Walk
  | Bike
  | Transit
  | Drive
deriving DecidableEq, Repr

def TripMode.all : List TripMode :=
  [TripMode.Walk, TripMode.Bike, TripMode.Transit, TripMode.Drive]

def TripMode.from_agent : AgentID → TripMode
  | AgentID.Pedestrian _ => TripMode.Walk
  | AgentID.Car id =>
    match id.vtype with
    | VehicleType.Car => TripMode.Drive
    | VehicleType.Bike => TripMode.Bike
    | VehicleType.Bus => TripMode.Transit

inductive TripStart
  | Bldg (b : BuildingID)
  | Border (i : IntersectionID)
deriving DecidableEq, Repr

inductive TripEnd
  | Bldg (b : BuildingID)
  | Border (i : IntersectionID)
  | ServeBusRoute (r : BusRouteID)
deriving DecidableEq, Repr

inductive PathConstraints
  | Pedestrian
  | Car
  | Bike
  | Bus
deriving DecidableEq, Repr

structure PathRequest where
  start : Position
  end_ : Position
  constraints : PathConstraints
deriving DecidableEq, Repr

inductive TripPhaseType
  | Driving
  | Walking
  | Biking
  | Parking
  | WaitingForBus (r : BusRouteID)
  | RidingBus (r : BusRouteID)
  | Aborted
  | Finished
deriving DecidableEq, Repr

/-- `sim/src/events.rs` (the `AgentEntersTraversable` variant, which carries the
external `Traversable` type and is never produced by the embedded code, is
omitted). -/
inductive Event
  | CarReachedParkingSpot (car : CarID) (spot : ParkingSpot)
  | CarOrBikeReachedBorder (car : CarID) (i : IntersectionID)
  | BusArrivedAtStop (bus : CarID) (r : BusRouteID) (stop : BusStopID)
  | BusDepartedFromStop (bus : CarID) (r : BusRouteID) (stop : BusStopID)
  | PedReachedParkingSpot (ped : PedestrianID) (spot : ParkingSpot)
  | PedReachedBuilding (ped : PedestrianID) (b : BuildingID)
  | PedReachedBorder (ped : PedestrianID) (i : IntersectionID)
  | PedReachedBusStop (ped : PedestrianID) (stop : BusStopID) (r : BusRouteID)
  | PedEntersBus (ped : PedestrianID) (bus : CarID) (r : BusRouteID)
  | PedLeavesBus (ped : PedestrianID) (bus : CarID) (r : BusRouteID)
  | BikeStoppedAtSidewalk (bike : CarID) (lane : LaneID)
  | IntersectionDelayMeasured (i : IntersectionID) (d : Nat)
  | TripFinished (t : TripID) (m : TripMode) (d : Nat)
  | TripAborted (t : TripID) (m : TripMode)
  | TripPhaseStarting (t : TripID) (m : TripMode) (req : Option PathRequest) (ph : TripPhaseType)
  | PathAmended (p : MapPath)
deriving DecidableEq, Repr

/-- `CreatePedestrian`, with the fields used by the `trips.rs` call sites. -/
structure CreatePedestrian where
  id : PedestrianID
  speed : Speed
  start : SidewalkSpot
  goal : SidewalkSpot
  path : MapPath
  req : PathRequest
  trip : TripID
deriving DecidableEq, Repr

/-- `CreateCar`, with the fields used by the `trips.rs` call sites. -/
structure CreateCar where
  vehicle : Vehicle
  router : Router
  req : PathRequest
  start_dist : Distance
  maybe_parked_car : Option ParkedCar
  trip : TripID
deriving DecidableEq, Repr

def CreateCar.for_appearing (vehicle : Vehicle) (start_pos : Position) (router : Router)
    (req : PathRequest) (trip : TripID) : CreateCar :=
  { vehicle := vehicle, router := router, req := req, start_dist := start_pos.dist_along,
    maybe_parked_car := none, trip := trip }

def CreateCar.for_parked_car (parked_car : ParkedCar) (router : Router) (req : PathRequest)
    (start_dist : Distance) (trip : TripID) : CreateCar :=
  { vehicle := parked_car.vehicle, router := router, req := req, start_dist := start_dist,
    maybe_parked_car := some parked_car, trip := trip }

inductive Command
  | SpawnCar (cc : CreateCar) (retry_if_no_room : Bool)
  | SpawnPed (cp : CreatePedestrian)
deriving DecidableEq, Repr

inductive PersonState
  | Trip (t : TripID)
  | Inside (b : BuildingID)
  | OffMap
  | Limbo
deriving DecidableEq, Repr

structure Person where
  id : PersonID
  trips : List TripID
  state : PersonState
deriving DecidableEq, Repr

structure PersonSpec where
  id : PersonID
  trips : List Nat
deriving DecidableEq, Repr

structure Trip where
  id : TripID
  spawned_at : Time
  finished_at : Option Time
  aborted : Bool
  legs : List TripLeg
  mode : TripMode
  start : TripStart
  end_ : TripEnd
  person : Option PersonID
deriving DecidableEq, Repr

/-- The external collaborators consumed by `trips.rs`: the map's pathfinding
and position queries, the parking state and the transit state. -/
structure World where
  pathfind : PathRequest → Option MapPath
  spot_to_sidewalk_pos : ParkingSpot → Position
  spot_to_driving_pos : ParkingSpot → Vehicle → Position
  building_sidewalk_pos : BuildingID → Position
  bus_stop_sidewalk_pos : BusStopID → Position
  border_sidewalk_pos : IntersectionID → Option Position
  goal_pos : DrivingGoal → PathConstraints → Position
  get_car_at_spot : ParkingSpot → Option ParkedCar
  ped_waiting_for_bus : Time → PedestrianID → BusStopID → BusRouteID → BusStopID → Bool
  make_router : DrivingGoal → MapPath → VehicleType → Router

def SidewalkSpot.parking_spot (w : World) (spot : ParkingSpot) : SidewalkSpot :=
  { connection := SidewalkPOI.ParkingSpot spot, sidewalk_pos := w.spot_to_sidewalk_pos spot }

def SidewalkSpot.building (w : World) (b : BuildingID) : SidewalkSpot :=
  { connection := SidewalkPOI.Building b, sidewalk_pos := w.building_sidewalk_pos b }

def SidewalkSpot.bus_stop (w : World) (stop : BusStopID) : SidewalkSpot :=
  { connection := SidewalkPOI.BusStop stop, sidewalk_pos := w.bus_stop_sidewalk_pos stop }

def SidewalkSpot.end_at_border (w : World) (i : IntersectionID) : Option SidewalkSpot :=
  (w.border_sidewalk_pos i).map
    (fun pos => { connection := SidewalkPOI.Border i, sidewalk_pos := pos })

/-- The `TripManager` state.  The extra `scheduled` field records the pushes
made on the `&mut Scheduler` argument that the milestone methods receive. -/
structure TripManager where
  trips : List Trip
  people : List Person
  active_trip_mode : List (AgentID × TripID)
  num_bus_trips : Nat
  unfinished_trips : Nat
  events : List Event
  scheduled : List (Time × Command)
deriving DecidableEq, Repr

def TripManager.new : TripManager :=
  { trips := [], people := [], active_trip_mode := [], num_bus_trips := 0,
    unfinished_trips := 0, events := [], scheduled := [] }

def mapLookup : List (AgentID × TripID) → AgentID → Option TripID
  | [], _ => none
  | (b, t) :: rest, a => if b = a then some t else mapLookup rest a

def mapRemove (m : List (AgentID × TripID)) (a : AgentID) : List (AgentID × TripID) :=
  m.filter (fun e => decide (e.1 ≠ a))

def pushEvent (s : TripManager) (e : Event) : TripManager :=
  { s with events := s.events ++ [e] }

def pushCmd (s : TripManager) (now : Time) (c : Command) : TripManager :=
  { s with scheduled := s.scheduled ++ [(now, c)] }

def Trip.is_bus_trip (t : Trip) : Bool :=
  match t.legs with
  | [TripLeg.ServeBusRoute _ _] => true
  | _ => false

/-- The mode computation loop of `TripManager::new_trip`. -/
def legMode (m : TripMode) : TripLeg → TripMode
  | TripLeg.Walk _ _ spot =>
    match spot.connection with
    | SidewalkPOI.DeferredParkingSpot _ _ => TripMode.Drive
    | _ => m
  | TripLeg.Drive vehicle _ =>
    if vehicle.vehicle_type = VehicleType.Bike then TripMode.Bike else TripMode.Drive
  | TripLeg.RideBus _ _ _ => TripMode.Transit
  | TripLeg.ServeBusRoute _ _ => TripMode.Transit

/-- The `end` computation of `TripManager::new_trip`; `none` is the
`unreachable!()` arm. -/
def tripEndOfLegs (legs : List TripLeg) : Option TripEnd :=
  match legs.getLast? with
  | some (TripLeg.Walk _ _ spot) =>
    match spot.connection with
    | SidewalkPOI.Building b => some (TripEnd.Bldg b)
    | SidewalkPOI.Border i => some (TripEnd.Border i)
    | SidewalkPOI.DeferredParkingSpot _ goal =>
      match goal with
      | DrivingGoal.ParkNear b => some (TripEnd.Bldg b)
      | DrivingGoal.Border i _ => some (TripEnd.Border i)
    | _ => none
  | some (TripLeg.Drive _ goal) =>
    match goal with
    | DrivingGoal.ParkNear b => some (TripEnd.Bldg b)
    | DrivingGoal.Border i _ => some (TripEnd.Border i)
  | some (TripLeg.ServeBusRoute _ route) => some (TripEnd.ServeBusRoute route)
  | _ => none

def new_trip (s : TripManager) (spawned_at : Time) (start : TripStart) (legs : List TripLeg) :
    Option (TripManager × TripID) :=
  if legs.isEmpty then none
  else
    let id := s.trips.length
    let mode := legs.foldl legMode TripMode.Walk
    match tripEndOfLegs legs with
    | none => none
    | some end_ =>
      let trip : Trip :=
        { id := id, spawned_at := spawned_at, finished_at := none, aborted := false,
          legs := legs, mode := mode, start := start, end_ := end_, person := none }
      some ({ s with
          trips := s.trips ++ [trip],
          unfinished_trips :=
            if trip.is_bus_trip then s.unfinished_trips else s.unfinished_trips + 1 },
        id)

/-- The per-trip loop of `TripManager::new_person`: assert the trip has no
person yet, then record the owner. -/
def assignPerson (pid : PersonID) : List Trip → List Nat → Option (List Trip)
  | trips, [] => some trips
  | trips, t :: rest =>
    match trips.get? t with
    | none => none
    | some trip =>
      if trip.person.isSome then none
      else assignPerson pid (trips.set t { trip with person := some pid }) rest

def new_person (s : TripManager) (spec : PersonSpec) : Option TripManager :=
  if spec.id = s.people.length then
    match assignPerson spec.id s.trips spec.trips with
    | none => none
    | some trips' =>
      match spec.trips.head? with
      | none => none
      | some t0 =>
        match trips'.get? t0 with
        | none => none
        | some trip =>
          let state :=
            if trip.aborted then PersonState.Limbo
            else
              match trip.start with
              | TripStart.Bldg b => PersonState.Inside b
              | TripStart.Border _ => PersonState.OffMap
          some { s with trips := trips', people := s.people ++ [{ id := spec.id, trips := spec.trips, state := state }] }
  else none

def dynamically_override_legs (s : TripManager) (id : TripID) (legs : List TripLeg) :
    Option TripManager :=
  match s.trips.get? id with
  | none => none
  | some trip =>
    some { s with trips := s.trips.set id { trip with legs := legs, mode := TripMode.Drive } }

/-- `self.people[p].state = st`, with the panics of `unwrap()` and of
out-of-bounds indexing modelled as `none`. -/
def setPersonState (s : TripManager) (p : Option PersonID) (st : PersonState) :
    Option TripManager :=
  match p with
  | none => none
  | some pid =>
    match s.people.get? pid with
    | none => none
    | some person => some { s with people := s.people.set pid { person with state := st } }

def agent_starting_trip_leg (s : TripManager) (agent : AgentID) (t : TripID) :
    Option TripManager :=
  match mapLookup s.active_trip_mode agent with
  | some _ => none
  | none =>
    let s1 := { s with active_trip_mode := (agent, t) :: s.active_trip_mode }
    match s1.trips.get? t with
    | none => none
    | some trip =>
      if trip.is_bus_trip then some { s1 with num_bus_trips := s1.num_bus_trips + 1 }
      else setPersonState s1 trip.person (PersonState.Trip t)

/-- `Trip::spawn_ped`.  The outer `none` is the `unreachable!()` panic; a
`some none` is the `false` return (no walking path); `some (some c)` is the
`true` return together with the command pushed on the scheduler. -/
def Trip.spawn_ped (t : Trip) (w : World) (now : Time) (start : SidewalkSpot) :
    Option (Option (Time × Command)) :=
  match t.legs with
  | TripLeg.Walk ped speed walk_to :: _ =>
    let req : PathRequest :=
      { start := start.sidewalk_pos, end_ := walk_to.sidewalk_pos,
        constraints := PathConstraints.Pedestrian }
    match w.pathfind req with
    | none => some none
    | some path =>
      some (some (now, Command.SpawnPed
        { id := ped, speed := speed, start := start, goal := walk_to, path := path,
          req := req, trip := t.id }))
  | _ => none

def Trip.assert_walking_leg (t : Trip) (ped : PedestrianID) (goal : SidewalkSpot) :
    Option Trip :=
  match t.legs with
  | TripLeg.Walk p _ spot :: rest =>
    if p = ped then if goal = spot then some { t with legs := rest } else none
    else none
  | _ => none

/-- The tail of `TripManager::car_reached_parking_spot`: store the popped trip
and spawn the pedestrian from the parking spot. -/
def carReachedSpawnPed (w : World) (now : Time) (spot : ParkingSpot) (s1 : TripManager)
    (tid : TripID) (trip1 : Trip) : Option TripManager :=
  let s2 := { s1 with trips := s1.trips.set tid trip1 }
  match trip1.spawn_ped w now (SidewalkSpot.parking_spot w spot) with
  | none => none
  | some none => some { s2 with unfinished_trips := s2.unfinished_trips - 1 }
  | some (some c) => some (pushCmd s2 c.1 c.2)

def car_reached_parking_spot (w : World) (now : Time) (car : CarID) (spot : ParkingSpot)
    (s : TripManager) : Option TripManager :=
  let s0 := pushEvent s (Event.CarReachedParkingSpot car spot)
  match mapLookup s0.active_trip_mode (AgentID.Car car) with
  | none => none
  | some tid =>
    let s1 := { s0 with active_trip_mode := mapRemove s0.active_trip_mode (AgentID.Car car) }
    match s1.trips.get? tid with
    | none => none
    | some trip =>
      match trip.legs with
      | TripLeg.Drive vehicle (DrivingGoal.ParkNear _) :: rest =>
        if vehicle.id = car then
          let trip1 := { trip with legs := rest }
          match rest with
          | TripLeg.Walk _ _ walk_to :: _ =>
            match spot, walk_to.connection with
            | ParkingSpot.Offstreet b1 _, SidewalkPOI.Building b2 =>
              if b1 = b2 then
                if rest.length = 1 then
                  if trip1.finished_at.isSome then none
                  else
                    let trip2 := { trip1 with finished_at := some now }
                    let s2 := { s1 with trips := s1.trips.set tid trip2, unfinished_trips := s1.unfinished_trips - 1 }
                    let s3 := pushEvent s2
                      (Event.TripFinished trip2.id trip2.mode (now - trip2.spawned_at))
                    setPersonState s3 trip2.person (PersonState.Inside b1)
                else none
              else carReachedSpawnPed w now spot s1 tid trip1
            | _, _ => carReachedSpawnPed w now spot s1 tid trip1
          | _ => none
        else none
      | _ => none

def ped_reached_parking_spot (w : World) (now : Time) (ped : PedestrianID) (spot : ParkingSpot)
    (s : TripManager) : Option TripManager :=
  let s0 := pushEvent s (Event.PedReachedParkingSpot ped spot)
  match mapLookup s0.active_trip_mode (AgentID.Pedestrian ped) with
  | none => none
  | some tid =>
    let s1 :=
      { s0 with active_trip_mode := mapRemove s0.active_trip_mode (AgentID.Pedestrian ped) }
    match s1.trips.get? tid with
    | none => none
    | some trip =>
      match trip.assert_walking_leg ped (SidewalkSpot.parking_spot w spot) with
      | none => none
      | some trip1 =>
        match trip1.legs with
        | TripLeg.Drive vehicle drive_to :: _ =>
          match w.get_car_at_spot spot with
          | none => none
          | some parked_car =>
            if parked_car.vehicle.id = vehicle.id then
              let start0 := w.spot_to_driving_pos parked_car.spot parked_car.vehicle
              let start :=
                match spot with
                | ParkingSpot.Offstreet _ _ =>
                  { lane := start0.lane,
                    dist_along := start0.dist_along + parked_car.vehicle.length : Position }
                | _ => start0
              let req : PathRequest :=
                { start := start, end_ := w.goal_pos drive_to PathConstraints.Car,
                  constraints := PathConstraints.Car }
              match w.pathfind req with
              | none =>
                let trip2 := { trip1 with aborted := true }
                let s2 := { s1 with trips := s1.trips.set tid trip2, unfinished_trips := s1.unfinished_trips - 1 }
                let s3 := pushEvent s2 (Event.TripAborted trip2.id trip2.mode)
                setPersonState s3 trip2.person PersonState.Limbo
              | some path =>
                let router := w.make_router drive_to path parked_car.vehicle.vehicle_type
                let s2 := { s1 with trips := s1.trips.set tid trip1 }
                some (pushCmd s2 now (Command.SpawnCar
                  (CreateCar.for_parked_car parked_car router req start.dist_along trip1.id)
                  true))
            else none
        | _ => none

def ped_ready_to_bike (w : World) (now : Time) (ped : PedestrianID) (spot : SidewalkSpot)
    (s : TripManager) : Option TripManager :=
  match mapLookup s.active_trip_mode (AgentID.Pedestrian ped) with
  | none => none
  | some tid =>
    let s1 := { s with active_trip_mode := mapRemove s.active_trip_mode (AgentID.Pedestrian ped) }
    match s1.trips.get? tid with
    | none => none
    | some trip =>
      match trip.assert_walking_leg ped spot with
      | none => none
      | some trip1 =>
        match trip1.legs with
        | TripLeg.Drive vehicle drive_to :: _ =>
          match spot.connection with
          | SidewalkPOI.BikeRack driving_pos =>
            let req : PathRequest :=
              { start := driving_pos, end_ := w.goal_pos drive_to PathConstraints.Bike,
                constraints := PathConstraints.Bike }
            match w.pathfind req with
            | none =>
              let trip2 := { trip1 with aborted := true }
              let s2 := { s1 with trips := s1.trips.set tid trip2, unfinished_trips := s1.unfinished_trips - 1 }
              let s3 := pushEvent s2 (Event.TripAborted trip2.id trip2.mode)
              setPersonState s3 trip2.person PersonState.Limbo
            | some path =>
              let router := w.make_router drive_to path vehicle.vehicle_type
              let s2 := { s1 with trips := s1.trips.set tid trip1 }
              some (pushCmd s2 now (Command.SpawnCar
                (CreateCar.for_appearing vehicle driving_pos router req trip1.id) true))
          | _ => none
        | _ => none

def bike_reached_end (w : World) (now : Time) (bike : CarID) (bike_rack : SidewalkSpot)
    (s : TripManager) : Option TripManager :=
  let s0 := pushEvent s (Event.BikeStoppedAtSidewalk bike bike_rack.sidewalk_pos.lane)
  match mapLookup s0.active_trip_mode (AgentID.Car bike) with
  | none => none
  | some tid =>
    let s1 := { s0 with active_trip_mode := mapRemove s0.active_trip_mode (AgentID.Car bike) }
    match s1.trips.get? tid with
    | none => none
    | some trip =>
      match trip.legs with
      | TripLeg.Drive vehicle (DrivingGoal.ParkNear _) :: rest =>
        if vehicle.id = bike then
          let trip1 := { trip with legs := rest }
          let s2 := { s1 with trips := s1.trips.set tid trip1 }
          match trip1.spawn_ped w now bike_rack with
          | none => none
          | some none => some { s2 with unfinished_trips := s2.unfinished_trips - 1 }
          | some (some c) => some (pushCmd s2 c.1 c.2)
        else none
      | _ => none

def ped_reached_building (w : World) (now : Time) (ped : PedestrianID) (bldg : BuildingID)
    (s : TripManager) : Option TripManager :=
  let s0 := pushEvent s (Event.PedReachedBuilding ped bldg)
  match mapLookup s0.active_trip_mode (AgentID.Pedestrian ped) with
  | none => none
  | some tid =>
    let s1 :=
      { s0 with active_trip_mode := mapRemove s0.active_trip_mode (AgentID.Pedestrian ped) }
    match s1.trips.get? tid with
    | none => none
    | some trip =>
      match trip.assert_walking_leg ped (SidewalkSpot.building w bldg) with
      | none => none
      | some trip1 =>
        if trip1.legs.isEmpty then
          if trip1.finished_at.isSome then none
          else
            let trip2 := { trip1 with finished_at := some now }
            let s2 := { s1 with trips := s1.trips.set tid trip2, unfinished_trips := s1.unfinished_trips - 1 }
            let s3 := pushEvent s2
              (Event.TripFinished trip2.id trip2.mode (now - trip2.spawned_at))
            setPersonState s3 trip2.person (PersonState.Inside bldg)
        else none

/-- `TripManager::ped_reached_bus_stop`; the second component of the result is
the returned `Option<BusRouteID>` (`none` means the ped boarded immediately). -/
def ped_reached_bus_stop (w : World) (now : Time) (ped : PedestrianID) (stop : BusStopID)
    (s : TripManager) : Option (TripManager × Option BusRouteID) :=
  match mapLookup s.active_trip_mode (AgentID.Pedestrian ped) with
  | none => none
  | some tid =>
    match s.trips.get? tid with
    | none => none
    | some trip =>
      match trip.legs with
      | TripLeg.Walk p _ spot :: rest =>
        if p = ped then
          if spot = SidewalkSpot.bus_stop w stop then
            match rest with
            | TripLeg.RideBus _ route stop2 :: _ =>
              let s1 := pushEvent s (Event.PedReachedBusStop ped stop route)
              let s2 := pushEvent s1 (Event.TripPhaseStarting trip.id trip.mode none
                (TripPhaseType.WaitingForBus route))
              if w.ped_waiting_for_bus now ped stop route stop2 then
                some ({ s2 with trips := s2.trips.set tid { trip with legs := rest } }, none)
              else some (s2, some route)
            | _ => none
          else none
        else none
      | _ => none

/-- `TripManager::ped_boarded_bus`; the `now` argument is only passed on to the
external walking state.  Note the unconditional `pop_front` and the absence of
any event. -/
def ped_boarded_bus (now : Time) (ped : PedestrianID) (s : TripManager) :
    Option (TripManager × TripID) :=
  match mapLookup s.active_trip_mode (AgentID.Pedestrian ped) with
  | none => none
  | some tid =>
    match s.trips.get? tid with
    | none => none
    | some trip =>
      some ({ s with trips := s.trips.set tid { trip with legs := trip.legs.tail } }, trip.id)

def ped_left_bus (w : World) (now : Time) (ped : PedestrianID) (s : TripManager) :
    Option TripManager :=
  match mapLookup s.active_trip_mode (AgentID.Pedestrian ped) with
  | none => none
  | some tid =>
    let s1 := { s with active_trip_mode := mapRemove s.active_trip_mode (AgentID.Pedestrian ped) }
    match s1.trips.get? tid with
    | none => none
    | some trip =>
      match trip.legs with
      | TripLeg.RideBus _ _ stop :: rest =>
        let trip1 := { trip with legs := rest }
        let s2 := { s1 with trips := s1.trips.set tid trip1 }
        match trip1.spawn_ped w now (SidewalkSpot.bus_stop w stop) with
        | none => none
        | some none => some { s2 with unfinished_trips := s2.unfinished_trips - 1 }
        | some (some c) => some (pushCmd s2 c.1 c.2)
      | _ => none

def ped_reached_border (w : World) (now : Time) (ped : PedestrianID) (i : IntersectionID)
    (s : TripManager) : Option TripManager :=
  let s0 := pushEvent s (Event.PedReachedBorder ped i)
  match mapLookup s0.active_trip_mode (AgentID.Pedestrian ped) with
  | none => none
  | some tid =>
    let s1 :=
      { s0 with active_trip_mode := mapRemove s0.active_trip_mode (AgentID.Pedestrian ped) }
    match s1.trips.get? tid with
    | none => none
    | some trip =>
      match SidewalkSpot.end_at_border w i with
      | none => none
      | some goal =>
        match trip.assert_walking_leg ped goal with
        | none => none
        | some trip1 =>
          if trip1.legs.isEmpty then
            if trip1.finished_at.isSome then none
            else
              let trip2 := { trip1 with finished_at := some now }
              let s2 := { s1 with trips := s1.trips.set tid trip2, unfinished_trips := s1.unfinished_trips - 1 }
              let s3 := pushEvent s2
                (Event.TripFinished trip2.id trip2.mode (now - trip2.spawned_at))
              setPersonState s3 trip2.person PersonState.OffMap
          else none

def car_or_bike_reached_border (now : Time) (car : CarID) (i : IntersectionID)
    (s : TripManager) : Option TripManager :=
  let s0 := pushEvent s (Event.CarOrBikeReachedBorder car i)
  match mapLookup s0.active_trip_mode (AgentID.Car car) with
  | none => none
  | some tid =>
    let s1 := { s0 with active_trip_mode := mapRemove s0.active_trip_mode (AgentID.Car car) }
    match s1.trips.get? tid with
    | none => none
    | some trip =>
      match trip.legs with
      | TripLeg.Drive _ (DrivingGoal.Border int _) :: rest =>
        if i = int then
          if rest.isEmpty then
            if trip.finished_at.isSome then none
            else
              let trip2 := { trip with legs := rest, finished_at := some now }
              let s2 := { s1 with trips := s1.trips.set tid trip2, unfinished_trips := s1.unfinished_trips - 1 }
              let s3 := pushEvent s2
                (Event.TripFinished trip2.id trip2.mode (now - trip2.spawned_at))
              setPersonState s3 trip2.person PersonState.OffMap
          else none
        else none
      | _ => none

def abort_trip_failed_start (s : TripManager) (id : TripID) : Option TripManager :=
  match s.trips.get? id with
  | none => none
  | some trip =>
    let trip1 := { trip with aborted := true }
    let s1 := { s with trips := s.trips.set id trip1 }
    if trip1.is_bus_trip then some (pushEvent s1 (Event.TripAborted id trip1.mode))
    else
      let s2 := { s1 with unfinished_trips := s1.unfinished_trips - 1 }
      match trip1.person with
      | none => some (pushEvent s2 (Event.TripAborted id trip1.mode))
      | some p =>
        match setPersonState s2 (some p) PersonState.Limbo with
        | none => none
        | some s3 => some (pushEvent s3 (Event.TripAborted id trip1.mode))

def abort_trip_impossible_parking (car : CarID) (s : TripManager) : Option TripManager :=
  match mapLookup s.active_trip_mode (AgentID.Car car) with
  | none => none
  | some tid =>
    let s1 := { s with active_trip_mode := mapRemove s.active_trip_mode (AgentID.Car car) }
    match s1.trips.get? tid with
    | none => none
    | some trip =>
      if trip.is_bus_trip then none
      else
        let trip1 := { trip with aborted := true }
        let s2 := { s1 with trips := s1.trips.set tid trip1, unfinished_trips := s1.unfinished_trips - 1 }
        let s3 := pushEvent s2 (Event.TripAborted trip1.id trip1.mode)
        setPersonState s3 trip1.person PersonState.Limbo

/-- `TripManager::num_trips`: (finished trips, unfinished trips, active trips
by mode, people inside buildings, people off map). -/
def num_trips (s : TripManager) :
    Nat × Nat × List (TripMode × Nat) × Nat × Nat :=
  let per_mode := TripMode.all.map (fun k =>
    (k, (s.active_trip_mode.filter (fun e => decide (TripMode.from_agent e.1 = k))).length))
  let ppl_in_bldg := (s.people.filter (fun p =>
    match p.state with
    | PersonState.Inside _ => true
    | _ => false)).length
  let ppl_off_map := (s.people.filter (fun p =>
    match p.state with
    | PersonState.OffMap => true
    | _ => false)).length
  (s.trips.length - s.unfinished_trips, s.unfinished_trips, per_mode, ppl_in_bldg, ppl_off_map)

def is_done (s : TripManager) : Bool :=
  s.unfinished_trips == 0

/-- The public mutating operations of `TripManager`, as one step alphabet. -/
inductive Op
  | newTrip (spawned_at : Time) (start : TripStart) (legs : List TripLeg)
  | newPerson (spec : PersonSpec)
  | dynamicallyOverrideLegs (id : TripID) (legs : List TripLeg)
  | agentStartingTripLeg (agent : AgentID) (t : TripID)
  | carReachedParkingSpot (now : Time) (car : CarID) (spot : ParkingSpot)
  | pedReachedParkingSpot (now : Time) (ped : PedestrianID) (spot : ParkingSpot)
  | pedReadyToBike (now : Time) (ped : PedestrianID) (spot : SidewalkSpot)
  | bikeReachedEnd (now : Time) (bike : CarID) (bike_rack : SidewalkSpot)
  | pedReachedBuilding (now : Time) (ped : PedestrianID) (bldg : BuildingID)
  | pedReachedBusStop (now : Time) (ped : PedestrianID) (stop : BusStopID)
  | pedBoardedBus (now : Time) (ped : PedestrianID)
  | pedLeftBus (now : Time) (ped : PedestrianID)
  | pedReachedBorder (now : Time) (ped : PedestrianID) (i : IntersectionID)
  | carOrBikeReachedBorder (now : Time) (car : CarID) (i : IntersectionID)
  | abortTripFailedStart (id : TripID)
  | abortTripImpossibleParking (car : CarID)
deriving DecidableEq, Repr

def apply (w : World) (op : Op) (s : TripManager) : Option TripManager :=
  match op with
  | Op.newTrip spawned_at start legs => (new_trip s spawned_at start legs).map Prod.fst
  | Op.newPerson spec => new_person s spec
  | Op.dynamicallyOverrideLegs id legs => dynamically_override_legs s id legs
  | Op.agentStartingTripLeg agent t => agent_starting_trip_leg s agent t
  | Op.carReachedParkingSpot now car spot => car_reached_parking_spot w now car spot s
  | Op.pedReachedParkingSpot now ped spot => ped_reached_parking_spot w now ped spot s
  | Op.pedReadyToBike now ped spot => ped_ready_to_bike w now ped spot s
  | Op.bikeReachedEnd now bike bike_rack => bike_reached_end w now bike bike_rack s
  | Op.pedReachedBuilding now ped bldg => ped_reached_building w now ped bldg s
  | Op.pedReachedBusStop now ped stop => (ped_reached_bus_stop w now ped stop s).map Prod.fst
  | Op.pedBoardedBus now ped => (ped_boarded_bus now ped s).map Prod.fst
  | Op.pedLeftBus now ped => ped_left_bus w now ped s
  | Op.pedReachedBorder now ped i => ped_reached_border w now ped i s
  | Op.carOrBikeReachedBorder now car i => car_or_bike_reached_border now car i s
  | Op.abortTripFailedStart id => abort_trip_failed_start s id
  | Op.abortTripImpossibleParking car => abort_trip_impossible_parking car s

def runOps (w : World) (ops : List Op) (s : TripManager) : Option TripManager :=
  match ops with
  | [] => some s
  | op :: rest =>
    match apply w op s with
    | none => none
    | some s' => runOps w rest s'

def countNonBus (s : TripManager) : Nat :=
  (s.trips.filter (fun t => !t.is_bus_trip)).length

def countFinished (s : TripManager) : Nat :=
  (s.trips.filter (fun t => !t.is_bus_trip && t.finished_at.isSome)).length

def countAborted (s : TripManager) : Nat :=
  (s.trips.filter (fun t => !t.is_bus_trip && t.aborted)).length

end Trips

namespace Spawn

/-- `TripEndpoint` from `sim/src/lib.rs`, as used by `spawner.rs`. -/
inductive TripEndpoint
  | Building (b : BuildingID)
  | Lane (l : LaneID)
deriving DecidableEq, Repr

inductive SidewalkPOI
  | ParkingSpot (spot : ParkingSpot)
  | DeferredParkingSpot (b : BuildingID) (goal : TripEndpoint)
  | Building (b : BuildingID)
  | BusStop (stop : BusStopID)
  | Border (i : IntersectionID)
  | BikeRack (pos : Position)
  | SuddenlyAppear
deriving DecidableEq, Repr

structure SidewalkSpot where
  connection : SidewalkPOI
  sidewalk_pos : Position
deriving DecidableEq, Repr

inductive TripLeg
  | Walk (ped : PedestrianID) (speed : Speed) (walk_to : SidewalkSpot)
  | Drive (vehicle : Vehicle) (goal : TripEndpoint)
  | RideBus (ped : PedestrianID) (route : BusRouteID) (stop2 : BusStopID)
  | ServeBusRoute (car : CarID) (route : BusRouteID)
deriving DecidableEq, Repr

/-- `PathRequest` with the fields used by `spawner.rs`. -/
structure PathRequest where
  start : Position
  end_ : Position
  can_use_bike_lanes : Bool
  can_use_bus_lanes : Bool
deriving DecidableEq, Repr

structure CreatePedestrian where
  id : PedestrianID
  speed : Speed
  start : SidewalkSpot
  goal : SidewalkSpot
  path : MapPath
  trip : TripID
deriving DecidableEq, Repr

structure CreateCar where
  vehicle : Vehicle
  router : Router
  start_dist : Distance
  maybe_parked_car : Option ParkedCar
  trip : TripID
deriving DecidableEq, Repr

def CreateCar.for_appearing (vehicle : Vehicle) (start_pos : Position) (router : Router)
    (trip : TripID) : CreateCar :=
  { vehicle := vehicle, router := router, start_dist := start_pos.dist_along,
    maybe_parked_car := none, trip := trip }

inductive Command
  | SpawnCar (cc : CreateCar) (retry_if_no_room : Bool)
  | SpawnPed (cp : CreatePedestrian)
deriving DecidableEq, Repr

inductive TripSpec
  | CarAppearing (start_pos : Position) (goal : TripEndpoint) (vehicle_spec : VehicleSpec)
      (ped_speed : Speed)
  | UsingParkedCar (start : SidewalkSpot) (spot : ParkingSpot) (goal : TripEndpoint)
      (ped_speed : Speed)
  | MaybeUsingParkedCar (start_bldg : BuildingID) (goal : TripEndpoint) (ped_speed : Speed)
  | JustWalking (start : SidewalkSpot) (goal : SidewalkSpot) (ped_speed : Speed)
  | UsingBike (start : SidewalkSpot) (goal : TripEndpoint) (vehicle : VehicleSpec)
      (ped_speed : Speed)
  | UsingTransit (start : SidewalkSpot) (goal : SidewalkSpot) (route : BusRouteID)
      (stop1 : BusStopID) (stop2 : BusStopID) (ped_speed : Speed)
deriving DecidableEq, Repr

/-- The external collaborators consumed by `spawner.rs`. -/
structure World where
  pathfind : PathRequest → Option MapPath
  lane_length : LaneID → Distance
  get_car_at_spot : ParkingSpot → Option ParkedCar
  spot_to_sidewalk_pos : ParkingSpot → Position
  building_front_path_sidewalk : BuildingID → Position
  bus_stop_sidewalk_pos : BusStopID → Position
  bike_from_bike_rack : LaneID → Option SidewalkSpot
  goal_pos_for_vehicle : TripEndpoint → Position
  bike_to_sidewalk : LaneID → Option LaneID
  current_step_as_lane : MapPath → LaneID
  make_router_for_vehicle : TripEndpoint → MapPath → VehicleType → Router

def SidewalkSpot.parking_spot (w : World) (spot : ParkingSpot) : SidewalkSpot :=
  { connection := SidewalkPOI.ParkingSpot spot, sidewalk_pos := w.spot_to_sidewalk_pos spot }

def SidewalkSpot.building (w : World) (b : BuildingID) : SidewalkSpot :=
  { connection := SidewalkPOI.Building b, sidewalk_pos := w.building_front_path_sidewalk b }

def SidewalkSpot.bus_stop (w : World) (stop : BusStopID) : SidewalkSpot :=
  { connection := SidewalkPOI.BusStop stop, sidewalk_pos := w.bus_stop_sidewalk_pos stop }

def SidewalkSpot.deferred_parking_spot (w : World) (b : BuildingID) (goal : TripEndpoint) :
    SidewalkSpot :=
  { connection := SidewalkPOI.DeferredParkingSpot b goal,
    sidewalk_pos := w.building_front_path_sidewalk b }

/-- One buffered `(Duration, Option<PedestrianID>, Option<CarID>, TripSpec)` tuple. -/
structure ScheduledTrip where
  start_time : Time
  ped_id : Option PedestrianID
  car_id : Option CarID
  spec : TripSpec
deriving DecidableEq, Repr

structure TripSpawner where
  parked_cars_claimed : List CarID
  trips : List ScheduledTrip
deriving DecidableEq, Repr

def TripSpawner.new : TripSpawner :=
  { parked_cars_claimed := [], trips := [] }

def TripSpawner.is_done (s : TripSpawner) : Bool :=
  s.trips.isEmpty

/-- `TripSpawner::schedule_trip`: synchronous validation of the spec, then
buffering.  A `none` result is one of the `panic!` arms. -/
def schedule_trip (w : World) (s : TripSpawner) (start_time : Time)
    (ped_id : Option PedestrianID) (car_id : Option CarID) (spec : TripSpec) :
    Option TripSpawner :=
  let push : TripSpawner → Option TripSpawner := fun s' =>
    some { s' with trips := s'.trips ++
      [{ start_time := start_time, ped_id := ped_id, car_id := car_id, spec := spec }] }
  match spec with
  | TripSpec.CarAppearing start_pos goal vehicle_spec _ =>
    if start_pos.dist_along < vehicle_spec.length then none
    else if w.lane_length start_pos.lane ≤ start_pos.dist_along then none
    else
      match goal with
      | TripEndpoint.Lane end_lane =>
        if start_pos.lane = end_lane ∧ start_pos.dist_along = w.lane_length end_lane then none
        else push s
      | TripEndpoint.Building _ => push s
  | TripSpec.UsingParkedCar _ spot _ _ =>
    match w.get_car_at_spot spot with
    | none => none
    | some pc =>
      if pc.vehicle.id ∈ s.parked_cars_claimed then none
      else push { s with parked_cars_claimed := pc.vehicle.id :: s.parked_cars_claimed }
  | TripSpec.MaybeUsingParkedCar _ _ _ => push s
  | TripSpec.JustWalking start goal _ =>
    if start = goal then none else push s
  | TripSpec.UsingBike start goal _ _ =>
    match w.bike_from_bike_rack start.sidewalk_pos.lane with
    | none => none
    | some _ =>
      match goal with
      | TripEndpoint.Building _ =>
        match w.bike_to_sidewalk (w.goal_pos_for_vehicle goal).lane with
        | none => none
        | some _ => push s
      | TripEndpoint.Lane _ => push s
  | TripSpec.UsingTransit _ _ _ _ _ _ => push s

/-- `TripSpec::get_pathfinding_request`; `none` is the `unwrap()` panic of the
`UsingBike` arm. -/
def get_pathfinding_request (w : World) (spec : TripSpec) : Option PathRequest :=
  match spec with
  | TripSpec.CarAppearing start_pos goal vehicle_spec _ =>
    some { start := start_pos, end_ := w.goal_pos_for_vehicle goal,
           can_use_bike_lanes := decide (vehicle_spec.vehicle_type = VehicleType.Bike),
           can_use_bus_lanes := decide (vehicle_spec.vehicle_type = VehicleType.Bus) }
  | TripSpec.UsingParkedCar start spot _ _ =>
    some { start := start.sidewalk_pos,
           end_ := (SidewalkSpot.parking_spot w spot).sidewalk_pos,
           can_use_bike_lanes := false, can_use_bus_lanes := false }
  | TripSpec.MaybeUsingParkedCar start_bldg _ _ =>
    let pos := w.building_front_path_sidewalk start_bldg
    some { start := pos, end_ := pos, can_use_bike_lanes := false, can_use_bus_lanes := false }
  | TripSpec.JustWalking start goal _ =>
    some { start := start.sidewalk_pos, end_ := goal.sidewalk_pos,
           can_use_bike_lanes := false, can_use_bus_lanes := false }
  | TripSpec.UsingBike start _ _ _ =>
    match w.bike_from_bike_rack start.sidewalk_pos.lane with
    | none => none
    | some spot2 =>
      some { start := start.sidewalk_pos, end_ := spot2.sidewalk_pos,
             can_use_bike_lanes := false, can_use_bus_lanes := false }
  | TripSpec.UsingTransit start _ _ stop1 _ _ =>
    some { start := start.sidewalk_pos,
           end_ := (SidewalkSpot.bus_stop w stop1).sidewalk_pos,
           can_use_bike_lanes := false, can_use_bus_lanes := false }

/-- Modelled from the spec: `abstutil::Timer::parallelize` (the `abstutil`
crate is not under `src/`).  Per §4.2/§5 of the spec the path requests are
"resolved in parallel" as independent side-effect-free computations and the
results are "rejoined in original submission order", so the embedding is the
order-preserving map. -/
def parallelize (f : α → β) (xs : List α) : List β :=
  xs.map f

/-- The registration `trips.new_trip(...)` made by one `spawn_all` arm; `id`
records the `TripID` the manager hands back (its trip count at the call). -/
structure NewTripCall where
  id : TripID
  start_time : Time
  start : TripEndpoint
  legs : List TripLeg
deriving DecidableEq, Repr

inductive SpawnOutcome
  | dropped (req : PathRequest)
  | spawned (reg : NewTripCall) (cmd : Time × Command)
deriving DecidableEq, Repr

/-- The `match start.connection` shared by the walking/bike/transit arms of
`spawn_all`. -/
def startEndpoint (w : World) (path : MapPath) (start : SidewalkSpot) : Option TripEndpoint :=
  match start.connection with
  | SidewalkPOI.Building b => some (TripEndpoint.Building b)
  | SidewalkPOI.SuddenlyAppear => some (TripEndpoint.Lane start.sidewalk_pos.lane)
  | SidewalkPOI.Border _ => some (TripEndpoint.Lane (w.current_step_as_lane path))
  | _ => none

/-- The body of the `spawn trips` loop of `TripSpawner::spawn_all` for one
tuple, given the precomputed request and path.  `tm_count` is the number of
trips already registered with the `TripManager`. -/
def spawnStep (w : World) (retry_if_no_room : Bool) (tm_count : Nat)
    (t : ScheduledTrip) (oreq : Option PathRequest) (opath : Option MapPath) :
    Option SpawnOutcome :=
  match oreq with
  | none => none
  | some req =>
    match opath with
    | none => some (SpawnOutcome.dropped req)
    | some path =>
      match t.spec with
      | TripSpec.CarAppearing start_pos goal vehicle_spec ped_speed =>
        let owner := match goal with
          | TripEndpoint.Building b => some b
          | _ => none
        match t.car_id with
        | none => none
        | some car_id =>
          let vehicle := vehicle_spec.make car_id owner
          match goal with
          | TripEndpoint.Building b =>
            match t.ped_id with
            | none => none
            | some ped =>
              let legs := [TripLeg.Drive vehicle goal,
                TripLeg.Walk ped ped_speed (SidewalkSpot.building w b)]
              let router := w.make_router_for_vehicle goal path vehicle.vehicle_type
              some (SpawnOutcome.spawned
                { id := tm_count, start_time := t.start_time,
                  start := TripEndpoint.Lane start_pos.lane, legs := legs }
                (t.start_time, Command.SpawnCar
                  (CreateCar.for_appearing vehicle start_pos router tm_count)
                  retry_if_no_room))
          | TripEndpoint.Lane _ =>
            let legs := [TripLeg.Drive vehicle goal]
            let router := w.make_router_for_vehicle goal path vehicle.vehicle_type
            some (SpawnOutcome.spawned
              { id := tm_count, start_time := t.start_time,
                start := TripEndpoint.Lane start_pos.lane, legs := legs }
              (t.start_time, Command.SpawnCar
                (CreateCar.for_appearing vehicle start_pos router tm_count)
                retry_if_no_room))
      | TripSpec.UsingParkedCar start spot goal ped_speed =>
        match w.get_car_at_spot spot with
        | none => none
        | some pc =>
          let vehicle := pc.vehicle
          match start.connection with
          | SidewalkPOI.Building b =>
            if vehicle.owner = some b then
              let parking_spot := SidewalkSpot.parking_spot w spot
              match t.ped_id with
              | none => none
              | some ped =>
                let legs := [TripLeg.Walk ped ped_speed parking_spot,
                    TripLeg.Drive vehicle goal] ++
                  (match goal with
                   | TripEndpoint.Building b2 =>
                     [TripLeg.Walk ped ped_speed (SidewalkSpot.building w b2)]
                   | TripEndpoint.Lane _ => [])
                match vehicle.owner with
                | none => none
                | some ob =>
                  some (SpawnOutcome.spawned
                    { id := tm_count, start_time := t.start_time,
                      start := TripEndpoint.Building ob, legs := legs }
                    (t.start_time, Command.SpawnPed
                      { id := ped, speed := ped_speed, start := start, goal := parking_spot,
                        path := path, trip := tm_count }))
            else none
          | _ => none
      | TripSpec.MaybeUsingParkedCar start_bldg goal ped_speed =>
        let walk_to := SidewalkSpot.deferred_parking_spot w start_bldg goal
        match t.ped_id with
        | none => none
        | some ped =>
          some (SpawnOutcome.spawned
            { id := tm_count, start_time := t.start_time,
              start := TripEndpoint.Building start_bldg,
              legs := [TripLeg.Walk ped ped_speed walk_to] }
            (t.start_time, Command.SpawnPed
              { id := ped, speed := ped_speed, start := SidewalkSpot.building w start_bldg,
                goal := walk_to, path := path, trip := tm_count }))
      | TripSpec.JustWalking start goal ped_speed =>
        match t.ped_id with
        | none => none
        | some ped =>
          match startEndpoint w path start with
          | none => none
          | some ep =>
            some (SpawnOutcome.spawned
              { id := tm_count, start_time := t.start_time, start := ep,
                legs := [TripLeg.Walk ped ped_speed goal] }
              (t.start_time, Command.SpawnPed
                { id := ped, speed := ped_speed, start := start, goal := goal,
                  path := path, trip := tm_count }))
      | TripSpec.UsingBike start goal vehicle ped_speed =>
        match w.bike_from_bike_rack start.sidewalk_pos.lane with
        | none => none
        | some walk_to =>
          match t.ped_id with
          | none => none
          | some ped =>
            match t.car_id with
            | none => none
            | some car_id =>
              let legs := [TripLeg.Walk ped ped_speed walk_to,
                  TripLeg.Drive (vehicle.make car_id none) goal] ++
                (match goal with
                 | TripEndpoint.Building b =>
                   [TripLeg.Walk ped ped_speed (SidewalkSpot.building w b)]
                 | TripEndpoint.Lane _ => [])
              match startEndpoint w path start with
              | none => none
              | some ep =>
                some (SpawnOutcome.spawned
                  { id := tm_count, start_time := t.start_time, start := ep, legs := legs }
                  (t.start_time, Command.SpawnPed
                    { id := ped, speed := ped_speed, start := start, goal := walk_to,
                      path := path, trip := tm_count }))
      | TripSpec.UsingTransit start goal route _ stop2 ped_speed =>
        match t.spec with
        | TripSpec.UsingTransit _ _ _ stop1 _ _ =>
          let walk_to := SidewalkSpot.bus_stop w stop1
          match t.ped_id with
          | none => none
          | some ped =>
            match startEndpoint w path start with
            | none => none
            | some ep =>
              some (SpawnOutcome.spawned
                { id := tm_count, start_time := t.start_time, start := ep,
                  legs := [TripLeg.Walk ped ped_speed walk_to,
                    TripLeg.RideBus ped route stop2,
                    TripLeg.Walk ped ped_speed goal] }
                (t.start_time, Command.SpawnPed
                  { id := ped, speed := ped_speed, start := start, goal := walk_to,
                    path := path, trip := tm_count }))
        | _ => none

/-- `spawn_one` packages one tuple the way the parallel phase of `spawn_all`
does: derive the request, pathfind, then run the loop body. -/
def spawn_one (w : World) (retry_if_no_room : Bool) (tm_count : Nat) (t : ScheduledTrip) :
    Option SpawnOutcome :=
  spawnStep w retry_if_no_room tm_count t (get_pathfinding_request w t.spec)
    ((get_pathfinding_request w t.spec).bind w.pathfind)

/-- The accumulated effects of `TripSpawner::spawn_all`: recorded warnings (in
iteration order), `new_trip` registrations and scheduler `quick_push`es. -/
structure SpawnResult where
  warnings : List PathRequest
  new_trips : List NewTripCall
  commands : List (Time × Command)
deriving DecidableEq, Repr

def SpawnResult.empty : SpawnResult :=
  { warnings := [], new_trips := [], commands := [] }

def SpawnResult.append (r1 r2 : SpawnResult) : SpawnResult :=
  { warnings := r1.warnings ++ r2.warnings, new_trips := r1.new_trips ++ r2.new_trips,
    commands := r1.commands ++ r2.commands }

/-- The `spawn trips` loop of `TripSpawner::spawn_all`, iterating the buffered
tuples in original submission order.  The `Nat` threaded through is the
`TripManager` trip count (the next `TripID` `new_trip` will assign). -/
def spawn_all (w : World) (retry_if_no_room : Bool) :
    List ScheduledTrip → Nat → Option (SpawnResult × Nat)
  | [], n => some (SpawnResult.empty, n)
  | t :: rest, n =>
    match spawn_one w retry_if_no_room n t with
    | none => none
    | some (SpawnOutcome.dropped req) =>
      (spawn_all w retry_if_no_room rest n).map
        (fun r => ({ warnings := req :: r.1.warnings, new_trips := r.1.new_trips,
                     commands := r.1.commands }, r.2))
    | some (SpawnOutcome.spawned reg cmd) =>
      (spawn_all w retry_if_no_room rest (n + 1)).map
        (fun r => ({ warnings := r.1.warnings, new_trips := reg :: r.1.new_trips,
                     commands := cmd :: r.1.commands }, r.2))

end Spawn

/-- Modelled from the spec: the `Scheduler` (`sim/src/scheduler.rs` is not
under `src/`).  Per §4.1 of the spec it is a time-ordered queue of commands
whose same-timestamp entries are delivered in a stable insertion-sequence
order; the model keys every entry by (delivery time, insertion sequence
number) and keeps the queue sorted, inserting each new entry after all
entries whose time is ≤ its own. -/
structure Scheduler (C : Type) where
  queue : List (Time × Nat × C)
  next_seq : Nat

def Scheduler.empty {C : Type} : Scheduler C :=
  { queue := [], next_seq := 0 }

def schedInsert {C : Type} (e : Time × Nat × C) : List (Time × Nat × C) → List (Time × Nat × C)
  | [] => [e]
  | f :: rest => if f.1 ≤ e.1 then f :: schedInsert e rest else e :: f :: rest

def Scheduler.push {C : Type} (s : Scheduler C) (t : Time) (c : C) : Scheduler C :=
  { queue := schedInsert (t, s.next_seq, c) s.queue, next_seq := s.next_seq + 1 }

/-- Deliver every command whose time has arrived, in queue order. -/
def Scheduler.pop_due {C : Type} (s : Scheduler C) (now : Time) : List C × Scheduler C :=
  ((s.queue.takeWhile (fun e => decide (e.1 ≤ now))).map (fun e => e.2.2),
   { s with queue := s.queue.dropWhile (fun e => decide (e.1 ≤ now)) })

def Scheduler.push_batch {C : Type} (s : Scheduler C) (cmds : List (Time × C)) : Scheduler C :=
  cmds.foldl (fun acc tc => acc.push tc.1 tc.2) s

/-- The deterministic core pipeline observed by claim C4: schedule a demand
list, run `spawn_all`, enqueue every emitted command, and read the delivery
order back out of the scheduler. -/
def run_core (w : Spawn.World) (retry_if_no_room : Bool) (horizon : Time)
    (demand : List Spawn.ScheduledTrip) : Option (Spawn.SpawnResult × List Spawn.Command) :=
  match demand.foldlM
      (fun sp (d : Spawn.ScheduledTrip) =>
        Spawn.schedule_trip w sp d.start_time d.ped_id d.car_id d.spec)
      Spawn.TripSpawner.new with
  | none => none
  | some sp =>
    match Spawn.spawn_all w retry_if_no_room sp.trips 0 with
    | none => none
    | some (r, _) =>
      some (r, ((Scheduler.empty.push_batch r.commands).pop_due horizon).1)

namespace Trips

/-- The legs of trip `i`, for stating queue-consumption properties. -/
def legsAt (s : TripManager) (i : Nat) : Option (List TripLeg) :=
  (s.trips.get? i).map Trip.legs

/-- The trip referenced by an active-map entry exists and is neither finished
nor aborted. -/
def activeOKb (trips : List Trip) (i : TripID) : Bool :=
  match trips.get? i with
  | some t => t.finished_at.isNone && !t.aborted
  | none => false

/-- The active-agent-to-trip map invariant: keys unique, referenced trips
pairwise distinct, and every referenced trip live. -/
def Inv (s : TripManager) : Prop :=
  (s.active_trip_mode.map Prod.fst).Nodup ∧
  (s.active_trip_mode.map Prod.snd).Nodup ∧
  ∀ e ∈ s.active_trip_mode, activeOKb s.trips e.2 = true

instance (s : TripManager) : Decidable (Inv s) := by
  unfold Inv
  infer_instance

/-- Usage precondition of `agent_starting_trip_leg` (the source's TODO "ensure
a trip only has one active agent" acknowledges it is unchecked): the trip
being started is live and not already referenced. -/
def startLegOK (s : TripManager) (t : TripID) : Prop :=
  activeOKb s.trips t = true ∧ t ∉ s.active_trip_mode.map Prod.snd

/-- Effect shape of the milestone methods that remove the agent's entry and
update that agent's trip: only the popped (or unchanged) leg queue matters
for the queue claims; the flags are arbitrary. -/
def removeSetShape (key : AgentID) (s s' : TripManager) : Prop :=
  ∃ tid told t', mapLookup s.active_trip_mode key = some tid ∧
    s.trips.get? tid = some told ∧
    s'.active_trip_mode = mapRemove s.active_trip_mode key ∧
    s'.trips = s.trips.set tid t' ∧
    (t'.legs = told.legs ∨ t'.legs = told.legs.tail)

/-- Effect shape of the methods that keep the map and update one trip without
touching its terminal flags. -/
def setOnlyShape (s s' : TripManager) : Prop :=
  ∃ tid told t', s.trips.get? tid = some told ∧
    s'.active_trip_mode = s.active_trip_mode ∧
    s'.trips = s.trips.set tid t' ∧
    (t'.legs = told.legs ∨ t'.legs = told.legs.tail) ∧
    t'.finished_at = told.finished_at ∧ t'.aborted = told.aborted

/-- Effect shape of the operations that change neither the map nor the trips. -/
def pureShape (s s' : TripManager) : Prop :=
  s'.active_trip_mode = s.active_trip_mode ∧ s'.trips = s.trips

end Trips

/-- A world whose pathfinding always fails; all position queries are constant. -/
def failWorld : Trips.World :=
  { pathfind := fun _ => none,
    spot_to_sidewalk_pos := fun _ => ⟨0, 0⟩,
    spot_to_driving_pos := fun _ _ => ⟨0, 0⟩,
    building_sidewalk_pos := fun _ => ⟨0, 0⟩,
    bus_stop_sidewalk_pos := fun _ => ⟨0, 0⟩,
    border_sidewalk_pos := fun _ => some ⟨0, 0⟩,
    goal_pos := fun _ _ => ⟨0, 0⟩,
    get_car_at_spot := fun _ => none,
    ped_waiting_for_bus := fun _ _ _ _ _ => true,
    make_router := fun _ _ _ => 0 }

/-- Like `failWorld`, but pathfinding always succeeds. -/
def okWorld : Trips.World :=
  { failWorld with pathfind := fun _ => some 0 }

def bikeId : CarID := ⟨0, VehicleType.Bike⟩

def bikeVeh : Vehicle :=
  { id := bikeId, owner := none, vehicle_type := VehicleType.Bike, length := 2,
    max_speed := none }

def walkSpot : Trips.SidewalkSpot :=
  { connection := Trips.SidewalkPOI.Building 0, sidewalk_pos := ⟨0, 0⟩ }

def rackSpot : Trips.SidewalkSpot :=
  { connection := Trips.SidewalkPOI.BikeRack ⟨1, 0⟩, sidewalk_pos := ⟨0, 0⟩ }

/-- C1 trace: a bike trip whose final walking leg has no path. -/
def opsC1 : List Trips.Op :=
  [Trips.Op.newTrip 0 (Trips.TripStart.Bldg 0)
      [Trips.TripLeg.Drive bikeVeh (Trips.DrivingGoal.ParkNear 0),
        Trips.TripLeg.Walk 0 1 walkSpot],
    Trips.Op.newPerson ⟨0, [0]⟩,
    Trips.Op.agentStartingTripLeg (AgentID.Car bikeId) 0,
    Trips.Op.bikeReachedEnd 5 bikeId rackSpot]

/-- C2 trace: a transit trip whose post-bus walking leg has no path. -/
def opsC2 : List Trips.Op :=
  [Trips.Op.newTrip 0 (Trips.TripStart.Bldg 0)
      [Trips.TripLeg.RideBus 0 7 3, Trips.TripLeg.Walk 0 1 walkSpot],
    Trips.Op.newPerson ⟨0, [0]⟩,
    Trips.Op.agentStartingTripLeg (AgentID.Pedestrian 0) 0,
    Trips.Op.pedLeftBus 5 0]

/-- C3 trace: abort a trip through `abort_trip_failed_start` while its agent
is still in the active map. -/
def opsC3 : List Trips.Op :=
  [Trips.Op.newTrip 0 (Trips.TripStart.Bldg 0) [Trips.TripLeg.Walk 0 1 walkSpot],
    Trips.Op.newPerson ⟨0, [0]⟩,
    Trips.Op.agentStartingTripLeg (AgentID.Pedestrian 0) 0,
    Trips.Op.abortTripFailedStart 0]

/-- C5 state: a pedestrian walking to a bike rack, about to mount. -/
def stateC5 : Option Trips.TripManager :=
  Trips.runOps okWorld
    [Trips.Op.newTrip 0 (Trips.TripStart.Bldg 0)
        [Trips.TripLeg.Walk 0 1 rackSpot,
          Trips.TripLeg.Drive bikeVeh (Trips.DrivingGoal.ParkNear 0)],
      Trips.Op.newPerson ⟨0, [0]⟩,
      Trips.Op.agentStartingTripLeg (AgentID.Pedestrian 0) 0]
    Trips.TripManager.new

def busStopSpot : Trips.SidewalkSpot := Trips.SidewalkSpot.bus_stop okWorld 3

/-- C9 state: a pedestrian walking to bus stop 3 to ride route 7. -/
def stateC9 : Option Trips.TripManager :=
  Trips.runOps okWorld
    [Trips.Op.newTrip 0 (Trips.TripStart.Bldg 0)
        [Trips.TripLeg.Walk 0 1 busStopSpot, Trips.TripLeg.RideBus 0 7 9,
          Trips.TripLeg.Walk 0 1 walkSpot],
      Trips.Op.newPerson ⟨0, [0]⟩,
      Trips.Op.agentStartingTripLeg (AgentID.Pedestrian 0) 0]
    Trips.TripManager.new

/-- C10 trace: one never-ending bus trip plus one aborted walk trip. -/
def opsC10 : List Trips.Op :=
  [Trips.Op.newTrip 0 (Trips.TripStart.Bldg 0)
      [Trips.TripLeg.ServeBusRoute ⟨5, VehicleType.Bus⟩ 2],
    Trips.Op.newTrip 0 (Trips.TripStart.Bldg 0) [Trips.TripLeg.Walk 0 1 walkSpot],
    Trips.Op.newPerson ⟨0, [1]⟩,
    Trips.Op.abortTripFailedStart 1]

def carA : CarID := ⟨3, VehicleType.Car⟩

def pcA : ParkedCar :=
  { vehicle := { id := carA, owner := some 4, vehicle_type := VehicleType.Car, length := 5,
                 max_speed := none },
    spot := ParkingSpot.Onstreet 2 0 }

/-- Spawner world for the C6 witness: every spot holds the same parked car. -/
def spawnWorldC6 : Spawn.World :=
  { pathfind := fun _ => some 0,
    lane_length := fun _ => 100,
    get_car_at_spot := fun _ => some pcA,
    spot_to_sidewalk_pos := fun _ => ⟨0, 0⟩,
    building_front_path_sidewalk := fun _ => ⟨0, 0⟩,
    bus_stop_sidewalk_pos := fun _ => ⟨0, 0⟩,
    bike_from_bike_rack := fun _ => none,
    goal_pos_for_vehicle := fun _ => ⟨0, 0⟩,
    bike_to_sidewalk := fun _ => none,
    current_step_as_lane := fun _ => 0,
    make_router_for_vehicle := fun _ _ _ => 0 }

def bldgSpotA : Spawn.SidewalkSpot :=
  { connection := Spawn.SidewalkPOI.Building 4, sidewalk_pos := ⟨0, 0⟩ }

def specC6 : Spawn.TripSpec :=
  Spawn.TripSpec.UsingParkedCar bldgSpotA (ParkingSpot.Onstreet 2 0)
    (Spawn.TripEndpoint.Building 8) 1

/-- Spawner world for C7: pathfinding fails exactly for requests starting on
lane 5. -/
def spawnWorldC7 : Spawn.World :=
  { spawnWorldC6 with
      pathfind := fun req => if req.start.lane = 5 then none else some 0 }

def walkStartC7 : Spawn.SidewalkSpot :=
  { connection := Spawn.SidewalkPOI.Building 1, sidewalk_pos := ⟨5, 0⟩ }

def walkGoalC7 : Spawn.SidewalkSpot :=
  { connection := Spawn.SidewalkPOI.Building 2, sidewalk_pos := ⟨6, 0⟩ }

/-- The C7 trip whose first path cannot be found. -/
def badTripC7 : Spawn.ScheduledTrip :=
  { start_time := 0, ped_id := some 0, car_id := none,
    spec := Spawn.TripSpec.JustWalking walkStartC7 walkGoalC7 1 }

def goodStartC7 : Spawn.SidewalkSpot :=
  { connection := Spawn.SidewalkPOI.Building 1, sidewalk_pos := ⟨7, 0⟩ }

/-- A companion trip in the same batch whose path resolves. -/
def goodTripC7 : Spawn.ScheduledTrip :=
  { start_time := 0, ped_id := some 1, car_id := none,
    spec := Spawn.TripSpec.JustWalking goodStartC7 walkGoalC7 1 }

def stateC1 : Option Trips.TripManager :=
  Trips.runOps failWorld opsC1 Trips.TripManager.new

def stateC2 : Option Trips.TripManager :=
  Trips.runOps failWorld opsC2 Trips.TripManager.new

def stateC3 : Option Trips.TripManager :=
  Trips.runOps failWorld opsC3 Trips.TripManager.new

def stateC10 : Option Trips.TripManager :=
  Trips.runOps failWorld opsC10 Trips.TripManager.new

/-- Does the event log contain any `TripAborted` record? -/
def hasTripAborted (s : Trips.TripManager) : Bool :=
  s.events.any (fun e =>
    match e with
    | Trips.Event.TripAborted _ _ => true
    | _ => false)

/-- Is this event a `TripPhaseStarting(_, _, _, WaitingForBus _)` record? -/
def isWaitingPhase (e : Trips.Event) : Bool :=
  match e with
  | Trips.Event.TripPhaseStarting _ _ _ (Trips.TripPhaseType.WaitingForBus _) => true
  | _ => false


namespace Trips

def modeAt (s : TripManager) (i : Nat) : Option TripMode :=
  (s.trips.get? i).map Trip.mode

/-- Conclusion of the leg-queue claim, by operation: `dynamically_override_legs`
replaces trip `id`'s queue wholesale and sets its mode to Drive, leaving every
other trip untouched; every other operation leaves each pre-existing trip's
queue unchanged or removes exactly its front element. -/
def C8Concl (op : Op) (s s' : TripManager) (i : Nat) : Prop :=
  match op with
  | Op.dynamicallyOverrideLegs id newLegs =>
      (i = id → legsAt s' i = some newLegs ∧ modeAt s' i = some TripMode.Drive) ∧
      (i ≠ id → legsAt s' i = legsAt s i ∧ modeAt s' i = modeAt s i)
  | _ => legsAt s' i = legsAt s i ∨ legsAt s' i = (legsAt s i).map List.tail

end Trips

def tmA : Trips.TripManager :=
  (Trips.runOps failWorld (opsC3.take 3) Trips.TripManager.new).getD Trips.TripManager.new

def tripA : Trips.Trip :=
  { id := 0, spawned_at := 0, finished_at := none, aborted := false,
    legs := [Trips.TripLeg.Walk 0 1 walkSpot], mode := Trips.TripMode.Walk,
    start := Trips.TripStart.Bldg 0, end_ := Trips.TripEnd.Bldg 0, person := some 0 }

def tmAB : Trips.TripManager :=
  (Trips.ped_reached_building failWorld 5 0 0 tmA).getD Trips.TripManager.new

def tmB : Trips.TripManager := stateC5.getD Trips.TripManager.new

def tmBafter : Trips.TripManager :=
  (Trips.ped_ready_to_bike okWorld 5 0 rackSpot tmB).getD Trips.TripManager.new

def tmC9 : Trips.TripManager := stateC9.getD Trips.TripManager.new

def tripC9 : Trips.Trip :=
  { id := 0, spawned_at := 0, finished_at := none, aborted := false,
    legs := [Trips.TripLeg.Walk 0 1 busStopSpot, Trips.TripLeg.RideBus 0 7 9,
      Trips.TripLeg.Walk 0 1 walkSpot],
    mode := Trips.TripMode.Transit, start := Trips.TripStart.Bldg 0,
    end_ := Trips.TripEnd.Bldg 0, person := some 0 }

def tmD : Trips.TripManager :=
  (Trips.runOps failWorld (opsC2.take 3) Trips.TripManager.new).getD Trips.TripManager.new

def reqC7 : Spawn.PathRequest :=
  { start := ⟨5, 0⟩, end_ := ⟨6, 0⟩, can_use_bike_lanes := false, can_use_bus_lanes := false }

def carId2 : CarID := ⟨1, VehicleType.Car⟩

def carVeh : Vehicle :=
  { id := carId2, owner := some 0, vehicle_type := VehicleType.Car, length := 4,
    max_speed := none }

def spotE : ParkingSpot := ParkingSpot.Onstreet 0 0

/-- A bike trip about to park: the first three steps of the C1 trace. -/
def tmE : Trips.TripManager :=
  (Trips.runOps okWorld (opsC1.take 3) Trips.TripManager.new).getD Trips.TripManager.new

def tmEafter : Trips.TripManager :=
  (Trips.car_reached_parking_spot okWorld 5 bikeId spotE tmE).getD Trips.TripManager.new

/-- Like `okWorld`, but every spot query finds `carVeh` parked at `spotE`. -/
def okWorldP : Trips.World :=
  { okWorld with get_car_at_spot := fun _ => some { vehicle := carVeh, spot := spotE } }

def parkWalkSpot : Trips.SidewalkSpot := Trips.SidewalkSpot.parking_spot okWorldP spotE

/-- A pedestrian walking to the parked car at `spotE`. -/
def tmF : Trips.TripManager :=
  (Trips.runOps okWorldP
    [Trips.Op.newTrip 0 (Trips.TripStart.Bldg 0)
        [Trips.TripLeg.Walk 0 1 parkWalkSpot,
          Trips.TripLeg.Drive carVeh (Trips.DrivingGoal.ParkNear 0)],
      Trips.Op.newPerson ⟨0, [0]⟩,
      Trips.Op.agentStartingTripLeg (AgentID.Pedestrian 0) 0]
    Trips.TripManager.new).getD Trips.TripManager.new

def tmFafter : Trips.TripManager :=
  (Trips.ped_reached_parking_spot okWorldP 5 0 spotE tmF).getD Trips.TripManager.new

def tmGafter : Trips.TripManager :=
  (Trips.bike_reached_end okWorld 5 bikeId rackSpot tmE).getD Trips.TripManager.new

def busStopRes : Trips.TripManager × Option BusRouteID :=
  (Trips.ped_reached_bus_stop okWorld 5 0 3 tmC9).getD (Trips.TripManager.new, none)

def borderSpot : Trips.SidewalkSpot :=
  { connection := Trips.SidewalkPOI.Border 2, sidewalk_pos := ⟨0, 0⟩ }

/-- A pedestrian walking off the map at border 2. -/
def tmH : Trips.TripManager :=
  (Trips.runOps okWorld
    [Trips.Op.newTrip 0 (Trips.TripStart.Bldg 0) [Trips.TripLeg.Walk 0 1 borderSpot],
      Trips.Op.newPerson ⟨0, [0]⟩,
      Trips.Op.agentStartingTripLeg (AgentID.Pedestrian 0) 0]
    Trips.TripManager.new).getD Trips.TripManager.new

def tmHafter : Trips.TripManager :=
  (Trips.ped_reached_border okWorld 5 0 2 tmH).getD Trips.TripManager.new

/-- A car driving off the map at border 2. -/
def tmI : Trips.TripManager :=
  (Trips.runOps okWorld
    [Trips.Op.newTrip 0 (Trips.TripStart.Bldg 0)
        [Trips.TripLeg.Drive carVeh (Trips.DrivingGoal.Border 2 0)],
      Trips.Op.newPerson ⟨0, [0]⟩,
      Trips.Op.agentStartingTripLeg (AgentID.Car carId2) 0]
    Trips.TripManager.new).getD Trips.TripManager.new

def tmIafter : Trips.TripManager :=
  (Trips.car_or_bike_reached_border 5 carId2 2 tmI).getD Trips.TripManager.new

/-- C1: the spec claims `unfinished_trips` always equals the number of non-bus
trips minus finished minus aborted, every decrementing path marking the trip
aborted.  The code path through `Trip::spawn_ped` failure (here in
`bike_reached_end`) decrements the counter but never sets the `aborted` flag,
contradicting `spawn_ped`'s own doc comment ("If not, trip aborted") and the
sibling abort paths; on the reachable state below the counter is 0 while the
claimed formula gives 1, and no `TripAborted` event was recorded. -/
theorem C1_spawn_ped_failure_breaks_counter :
    (stateC1.map fun s => (s.unfinished_trips,
      Trips.countNonBus s - Trips.countFinished s - Trips.countAborted s)) = some (0, 1) ∧
    (stateC1.map fun s => s.trips.map Trips.Trip.aborted) = some [false] ∧
    (stateC1.map fun s => s.trips.map Trips.Trip.finished_at) = some [none] ∧
    (stateC1.map hasTripAborted) = some false := by
  decide

/-- C2: the spec claims every mid-trip pathfinding failure (including the
walking-leg failures routed through `Trip::spawn_ped`, here in `ped_left_bus`)
sets the aborted flag, records a `TripAborted` event and moves the person to
Limbo.  On the reachable state below `ped_left_bus` hits a walking-leg
pathfinding failure: the unfinished counter is decremented, but the trip is
not marked aborted, no `TripAborted` event exists, and the person is left in
`Trip 0`, not Limbo — contradicting `spawn_ped`'s doc comment and the
`ped_reached_parking_spot` / `ped_ready_to_bike` abort paths. -/
theorem C2_mid_trip_walk_failure_not_aborted :
    (stateC2.map fun s => s.unfinished_trips) = some 0 ∧
    (stateC2.map fun s => s.trips.map Trips.Trip.aborted) = some [false] ∧
    (stateC2.map hasTripAborted) = some false ∧
    (stateC2.map fun s => s.people.map Trips.Person.state) =
      some [Trips.PersonState.Trip 0] := by
  decide

/-- C3 counterexample: `abort_trip_failed_start` sets the aborted flag without
removing the agent's entry, so after the reachable trace below the active map
still holds `(Pedestrian 0, 0)` while trip 0 is aborted — the claimed map
invariant `Inv` is false at this state. -/
theorem C3_stale_entry_after_failed_start :
    (stateC3.map fun s =>
      (Trips.mapLookup s.active_trip_mode (AgentID.Pedestrian 0),
        s.trips.map Trips.Trip.aborted, decide (Trips.Inv s))) =
      some (some 0, [true], false) := by
  decide

/-- C5 counterexample: `ped_ready_to_bike` pops the pedestrian's walking leg
without emitting any milestone event (the event log is unchanged across the
call), refuting the claim that every milestone method — `ped_ready_to_bike`
in particular — first emits an Event and then pops the leg. -/
theorem C5_ped_ready_to_bike_emits_no_event :
    (stateC5.bind fun s => (Trips.ped_ready_to_bike okWorld 5 0 rackSpot s).map fun s' =>
      (decide (s'.events = s.events), (Trips.legsAt s 0).map List.length,
        (Trips.legsAt s' 0).map List.length)) = some (true, some 2, some 1) := by
  decide

/-- C9 counterexample: even when the transit check reports a bus already
present (`ped_waiting_for_bus` returns true, the method returns `none` and
pops the walk leg), `ped_reached_bus_stop` has already pushed a
`TripPhaseStarting(.., WaitingForBus)` event — a "waiting for bus" phase IS
recorded for the trip, refuting the claim. -/
theorem C9_waiting_phase_recorded_anyway :
    (stateC9.bind fun s => (Trips.ped_reached_bus_stop okWorld 5 0 3 s).map fun r =>
      (r.2, r.1.events.filter isWaitingPhase, (Trips.legsAt r.1 0).map List.length)) =
      some (none,
        [Trips.Event.TripPhaseStarting 0 Trips.TripMode.Transit none
          (Trips.TripPhaseType.WaitingForBus 7)],
        some 2) := by
  decide

/-- C10: `num_trips` reports `trips.len() - unfinished_trips` as "finished",
and `is_done()` is exactly `unfinished_trips == 0`; on the reachable state
below the run counts as done and reports 2 finished trips although no trip
has `finished_at` set — one is a never-ending active bus trip and one is
aborted. -/
theorem C10_num_trips_counts_aborted_and_bus_as_finished :
    (∀ s : Trips.TripManager, (Trips.num_trips s).1 = s.trips.length - s.unfinished_trips) ∧
    (∀ s : Trips.TripManager, Trips.is_done s = (s.unfinished_trips == 0)) ∧
    (stateC10.map fun s => (Trips.is_done s, (Trips.num_trips s).1,
      s.trips.map fun t => (t.is_bus_trip, t.finished_at.isSome, t.aborted))) =
      some (true, 2, [(true, false, false), (false, false, true)]) :=
  ⟨fun _ => rfl, fun _ => rfl, by decide⟩

namespace Trips

theorem mapLookup_mem {m : List (AgentID × TripID)} {a : AgentID} {t : TripID}
    (h : mapLookup m a = some t) : (a, t) ∈ m := by
  induction m with
  | nil => simp [mapLookup] at h
  | cons e rest ih =>
    obtain ⟨b, t'⟩ := e
    by_cases hb : b = a
    · subst hb
      rw [mapLookup, if_pos rfl] at h
      cases h
      exact List.mem_cons_self _ _
    · rw [mapLookup, if_neg hb] at h
      exact List.mem_cons_of_mem _ (ih h)

theorem setPersonState_fields {s s' : TripManager} {p : Option PersonID} {st : PersonState}
    (h : setPersonState s p st = some s') :
    s'.active_trip_mode = s.active_trip_mode ∧ s'.trips = s.trips ∧
      s'.unfinished_trips = s.unfinished_trips ∧ s'.events = s.events := by
  unfold setPersonState at h
  split at h
  · exact absurd h (by simp)
  · split at h
    · exact absurd h (by simp)
    · cases h
      exact ⟨rfl, rfl, rfl, rfl⟩

theorem carReachedSpawnPed_shape {w : World} {now : Time} {spot : ParkingSpot}
    {s1 : TripManager} {tid : TripID} {trip1 : Trip} {s' : TripManager}
    (h : carReachedSpawnPed w now spot s1 tid trip1 = some s') :
    s'.active_trip_mode = s1.active_trip_mode ∧ s'.trips = s1.trips.set tid trip1 := by
  unfold carReachedSpawnPed at h
  split at h
  · exact absurd h (by simp)
  · cases h; exact ⟨rfl, rfl⟩
  · cases h; exact ⟨rfl, rfl⟩

theorem car_reached_shape {w : World} {now : Time} {car : CarID} {spot : ParkingSpot}
    {s s' : TripManager} (h : car_reached_parking_spot w now car spot s = some s') :
    removeSetShape (AgentID.Car car) s s' := by
  unfold car_reached_parking_spot at h
  simp only [pushEvent] at h
  split at h
  · exact absurd h (by simp)
  next tid hlk =>
    split at h
    · exact absurd h (by simp)
    next trip hget =>
      split at h
      case _ vehicle b rest heq =>
        split at h
        next hid =>
          split at h
          case _ ped speed walk_to tl hrest =>
            split at h
            case _ b1 idx b2 =>
              split at h
              next hb =>
                split at h
                next hlen =>
                  split at h
                  · exact absurd h (by simp)
                  next hfin =>
                    obtain ⟨hm, ht, _, _⟩ := setPersonState_fields h
                    refine ⟨tid, trip, _, hlk, hget, hm, ht, Or.inr ?_⟩
                    simp [heq]
                · exact absurd h (by simp)
              next hb =>
                obtain ⟨hm, ht⟩ := carReachedSpawnPed_shape h
                exact ⟨tid, trip, _, hlk, hget, hm, ht, Or.inr (by simp [heq])⟩
            next hother =>
              obtain ⟨hm, ht⟩ := carReachedSpawnPed_shape h
              exact ⟨tid, trip, _, hlk, hget, hm, ht, Or.inr (by simp [heq])⟩
          · exact absurd h (by simp)
        · exact absurd h (by simp)
      · exact absurd h (by simp)

theorem assert_walking_leg_shape {t : Trip} {ped : PedestrianID} {goal : SidewalkSpot}
    {t' : Trip} (h : t.assert_walking_leg ped goal = some t') :
    t'.legs = t.legs.tail ∧ t'.finished_at = t.finished_at ∧ t'.aborted = t.aborted ∧
      t'.id = t.id ∧ t'.mode = t.mode ∧ t'.person = t.person ∧
      t'.spawned_at = t.spawned_at := by
  unfold Trip.assert_walking_leg at h
  split at h
  case _ p speed spot rest heq =>
    split at h
    · split at h
      · cases h
        exact ⟨by simp [heq], rfl, rfl, rfl, rfl, rfl, rfl⟩
      · exact absurd h (by simp)
    · exact absurd h (by simp)
  · exact absurd h (by simp)

theorem ped_reached_parking_spot_shape {w : World} {now : Time} {ped : PedestrianID}
    {spot : ParkingSpot} {s s' : TripManager}
    (h : ped_reached_parking_spot w now ped spot s = some s') :
    removeSetShape (AgentID.Pedestrian ped) s s' := by
  unfold ped_reached_parking_spot at h
  simp only [pushEvent] at h
  split at h
  · exact absurd h (by simp)
  next tid hlk =>
    split at h
    · exact absurd h (by simp)
    next trip hget =>
      split at h
      · exact absurd h (by simp)
      next trip1 hassert =>
        have hlegs := (assert_walking_leg_shape hassert).1
        split at h
        case _ vehicle drive_to tl hrest =>
          split at h
          · exact absurd h (by simp)
          next parked_car hcar =>
            split at h
            next hid =>
              split at h
              · obtain ⟨hm, ht, _, _⟩ := setPersonState_fields h
                exact ⟨tid, trip, _, hlk, hget, hm, ht, Or.inr hlegs⟩
              · cases h
                exact ⟨tid, trip, _, hlk, hget, rfl, rfl, Or.inr hlegs⟩
            · exact absurd h (by simp)
        · exact absurd h (by simp)

theorem ped_ready_to_bike_shape {w : World} {now : Time} {ped : PedestrianID}
    {spot : SidewalkSpot} {s s' : TripManager}
    (h : ped_ready_to_bike w now ped spot s = some s') :
    removeSetShape (AgentID.Pedestrian ped) s s' := by
  unfold ped_ready_to_bike at h
  simp only [pushEvent, pushCmd] at h
  split at h
  · exact Option.noConfusion h
  next tid hlk =>
    split at h
    · exact Option.noConfusion h
    next trip hget =>
      split at h
      · exact Option.noConfusion h
      next trip1 hassert =>
        have hlegs := (assert_walking_leg_shape hassert).1
        split at h
        case _ vehicle drive_to tl hrest =>
          split at h
          next driving_pos hconn =>
            split at h
            · obtain ⟨hm, ht, _, _⟩ := setPersonState_fields h
              exact ⟨tid, trip, _, hlk, hget, hm, ht, Or.inr hlegs⟩
            · cases h
              exact ⟨tid, trip, _, hlk, hget, rfl, rfl, Or.inr hlegs⟩
          · exact Option.noConfusion h
        · exact Option.noConfusion h

theorem bike_reached_end_shape {w : World} {now : Time} {bike : CarID}
    {bike_rack : SidewalkSpot} {s s' : TripManager}
    (h : bike_reached_end w now bike bike_rack s = some s') :
    removeSetShape (AgentID.Car bike) s s' := by
  unfold bike_reached_end at h
  simp only [pushEvent] at h
  split at h
  · exact absurd h (by simp)
  next tid hlk =>
    split at h
    · exact absurd h (by simp)
    next trip hget =>
      split at h
      case _ vehicle b rest heq =>
        split at h
        next hid =>
          split at h
          · exact absurd h (by simp)
          · cases h
            exact ⟨tid, trip, _, hlk, hget, rfl, rfl, Or.inr (by simp [heq])⟩
          · cases h
            exact ⟨tid, trip, _, hlk, hget, rfl, rfl, Or.inr (by simp [heq])⟩
        · exact absurd h (by simp)
      · exact absurd h (by simp)

theorem ped_reached_building_shape {w : World} {now : Time} {ped : PedestrianID}
    {bldg : BuildingID} {s s' : TripManager}
    (h : ped_reached_building w now ped bldg s = some s') :
    removeSetShape (AgentID.Pedestrian ped) s s' := by
  unfold ped_reached_building at h
  simp only [pushEvent] at h
  split at h
  · exact absurd h (by simp)
  next tid hlk =>
    split at h
    · exact absurd h (by simp)
    next trip hget =>
      split at h
      · exact absurd h (by simp)
      next trip1 hassert =>
        have hlegs := (assert_walking_leg_shape hassert).1
        split at h
        · split at h
          · exact absurd h (by simp)
          · obtain ⟨hm, ht, _, _⟩ := setPersonState_fields h
            exact ⟨tid, trip, _, hlk, hget, hm, ht, Or.inr hlegs⟩
        · exact absurd h (by simp)

theorem ped_left_bus_shape {w : World} {now : Time} {ped : PedestrianID}
    {s s' : TripManager} (h : ped_left_bus w now ped s = some s') :
    removeSetShape (AgentID.Pedestrian ped) s s' := by
  unfold ped_left_bus at h
  simp only [pushEvent, pushCmd] at h
  split at h
  · exact absurd h (by simp)
  next tid hlk =>
    split at h
    · exact absurd h (by simp)
    next trip hget =>
      split at h
      case _ p route stop rest heq =>
        split at h
        · exact absurd h (by simp)
        · cases h
          exact ⟨tid, trip, _, hlk, hget, rfl, rfl, Or.inr (by simp [heq])⟩
        · cases h
          exact ⟨tid, trip, _, hlk, hget, rfl, rfl, Or.inr (by simp [heq])⟩
      · exact absurd h (by simp)

theorem ped_reached_border_shape {w : World} {now : Time} {ped : PedestrianID}
    {i : IntersectionID} {s s' : TripManager}
    (h : ped_reached_border w now ped i s = some s') :
    removeSetShape (AgentID.Pedestrian ped) s s' := by
  unfold ped_reached_border at h
  simp only [pushEvent] at h
  split at h
  · exact absurd h (by simp)
  next tid hlk =>
    split at h
    · exact absurd h (by simp)
    next trip hget =>
      split at h
      · exact absurd h (by simp)
      next goal hgoal =>
        split at h
        · exact absurd h (by simp)
        next trip1 hassert =>
          have hlegs := (assert_walking_leg_shape hassert).1
          split at h
          · split at h
            · exact absurd h (by simp)
            · obtain ⟨hm, ht, _, _⟩ := setPersonState_fields h
              exact ⟨tid, trip, _, hlk, hget, hm, ht, Or.inr hlegs⟩
          · exact absurd h (by simp)

theorem car_or_bike_reached_border_shape {now : Time} {car : CarID} {i : IntersectionID}
    {s s' : TripManager} (h : car_or_bike_reached_border now car i s = some s') :
    removeSetShape (AgentID.Car car) s s' := by
  unfold car_or_bike_reached_border at h
  simp only [pushEvent] at h
  split at h
  · exact absurd h (by simp)
  next tid hlk =>
    split at h
    · exact absurd h (by simp)
    next trip hget =>
      split at h
      case _ vehicle int l rest heq =>
        split at h
        next hi =>
          split at h
          next hempty =>
            split at h
            · exact absurd h (by simp)
            · obtain ⟨hm, ht, _, _⟩ := setPersonState_fields h
              exact ⟨tid, trip, _, hlk, hget, hm, ht, Or.inr (by simp [heq])⟩
          · exact absurd h (by simp)
        · exact absurd h (by simp)
      · exact absurd h (by simp)

theorem abort_trip_impossible_parking_shape {car : CarID} {s s' : TripManager}
    (h : abort_trip_impossible_parking car s = some s') :
    removeSetShape (AgentID.Car car) s s' := by
  unfold abort_trip_impossible_parking at h
  simp only [pushEvent] at h
  split at h
  · exact absurd h (by simp)
  next tid hlk =>
    split at h
    · exact absurd h (by simp)
    next trip hget =>
      split at h
      · exact absurd h (by simp)
      · obtain ⟨hm, ht, _, _⟩ := setPersonState_fields h
        exact ⟨tid, trip, _, hlk, hget, hm, ht, Or.inl rfl⟩

theorem ped_reached_bus_stop_shape {w : World} {now : Time} {ped : PedestrianID}
    {stop : BusStopID} {s : TripManager} {r : TripManager × Option BusRouteID}
    (h : ped_reached_bus_stop w now ped stop s = some r) :
    pureShape s r.1 ∨ setOnlyShape s r.1 := by
  unfold ped_reached_bus_stop at h
  simp only [pushEvent] at h
  split at h
  · exact absurd h (by simp)
  next tid hlk =>
    split at h
    · exact absurd h (by simp)
    next trip hget =>
      split at h
      case _ p speed spot rest heq =>
        split at h
        · split at h
          · split at h
            case _ p2 route stop2 tl hrest =>
              split at h
              · cases h
                exact Or.inr ⟨tid, trip, _, hget, rfl, rfl, Or.inr (by simp [heq]), rfl, rfl⟩
              · cases h
                exact Or.inl ⟨rfl, rfl⟩
            · exact absurd h (by simp)
          · exact absurd h (by simp)
        · exact absurd h (by simp)
      · exact absurd h (by simp)

theorem ped_boarded_bus_shape {now : Time} {ped : PedestrianID} {s : TripManager}
    {r : TripManager × TripID} (h : ped_boarded_bus now ped s = some r) :
    setOnlyShape s r.1 := by
  unfold ped_boarded_bus at h
  split at h
  · exact absurd h (by simp)
  next tid hlk =>
    split at h
    · exact absurd h (by simp)
    next trip hget =>
      cases h
      exact ⟨tid, trip, _, hget, rfl, rfl, Or.inr rfl, rfl, rfl⟩

theorem new_trip_shape {s : TripManager} {spawned_at : Time} {start : TripStart}
    {legs : List TripLeg} {r : TripManager × TripID}
    (h : new_trip s spawned_at start legs = some r) :
    r.1.active_trip_mode = s.active_trip_mode ∧ ∃ trip, r.1.trips = s.trips ++ [trip] := by
  unfold new_trip at h
  split at h
  · exact absurd h (by simp)
  · split at h
    · exact absurd h (by simp)
    · cases h
      exact ⟨rfl, _, rfl⟩

theorem dynamically_override_legs_shape {s : TripManager} {id : TripID}
    {legs : List TripLeg} {s' : TripManager}
    (h : dynamically_override_legs s id legs = some s') :
    s'.active_trip_mode = s.active_trip_mode ∧
      ∃ told, s.trips.get? id = some told ∧
        s'.trips = s.trips.set id
          { told with legs := legs, mode := TripMode.Drive } := by
  unfold dynamically_override_legs at h
  split at h
  · exact absurd h (by simp)
  next told hget =>
    cases h
    exact ⟨rfl, told, hget, rfl⟩

theorem agent_starting_trip_leg_shape {s : TripManager} {agent : AgentID} {t : TripID}
    {s' : TripManager} (h : agent_starting_trip_leg s agent t = some s') :
    mapLookup s.active_trip_mode agent = none ∧
      s'.active_trip_mode = (agent, t) :: s.active_trip_mode ∧ s'.trips = s.trips := by
  unfold agent_starting_trip_leg at h
  simp only [] at h
  split at h
  · exact absurd h (by simp)
  next hlk =>
    split at h
    · exact absurd h (by simp)
    next trip hget =>
      split at h
      · cases h
        exact ⟨hlk, rfl, rfl⟩
      · obtain ⟨hm, ht, _, _⟩ := setPersonState_fields h
        exact ⟨hlk, hm, ht⟩

theorem abort_trip_failed_start_shape {s : TripManager} {id : TripID} {s' : TripManager}
    (h : abort_trip_failed_start s id = some s') :
    s'.active_trip_mode = s.active_trip_mode ∧
      ∃ told, s.trips.get? id = some told ∧
        s'.trips = s.trips.set id { told with aborted := true } := by
  unfold abort_trip_failed_start at h
  simp only [pushEvent] at h
  split at h
  · exact absurd h (by simp)
  next told hget =>
    split at h
    · cases h
      exact ⟨rfl, told, hget, rfl⟩
    · split at h
      · cases h
        exact ⟨rfl, told, hget, rfl⟩
      next p hp =>
        split at h
        · exact absurd h (by simp)
        next s3 hset =>
          cases h
          obtain ⟨hm, ht, _, _⟩ := setPersonState_fields hset
          exact ⟨hm, told, hget, ht⟩

theorem mapLookup_none_not_mem {m : List (AgentID × TripID)} {a : AgentID}
    (h : mapLookup m a = none) : a ∉ m.map Prod.fst := by
  induction m with
  | nil => simp
  | cons e rest ih =>
    obtain ⟨b, t⟩ := e
    by_cases hb : b = a
    · subst hb
      rw [mapLookup, if_pos rfl] at h
      exact Option.noConfusion h
    · rw [mapLookup, if_neg hb] at h
      simp only [List.map_cons, List.mem_cons]
      rintro (rfl | hmem)
      · exact hb rfl
      · exact ih h hmem

theorem mem_mapRemove {m : List (AgentID × TripID)} {a : AgentID} {e : AgentID × TripID}
    (h : e ∈ mapRemove m a) : e ∈ m ∧ e.1 ≠ a := by
  unfold mapRemove at h
  have h2 := List.mem_filter.mp h
  exact ⟨h2.1, by simpa using h2.2⟩

theorem mapRemove_sublist (m : List (AgentID × TripID)) (a : AgentID) :
    (mapRemove m a).Sublist m :=
  List.filter_sublist m

theorem snd_ne_of_mem_remove {m : List (AgentID × TripID)} {a : AgentID} {tid : TripID}
    (hnodupS : (m.map Prod.snd).Nodup) (hlk : mapLookup m a = some tid)
    {e : AgentID × TripID} (he : e ∈ mapRemove m a) : e.2 ≠ tid := by
  intro heq
  obtain ⟨hmem, hne⟩ := mem_mapRemove he
  have hat : (a, tid) ∈ m := mapLookup_mem hlk
  have hee : e = (a, tid) := List.inj_on_of_nodup_map hnodupS hmem hat heq
  exact hne (by rw [hee])

theorem get?_some_lt {α : Type} {l : List α} {n : Nat} {a : α} (h : l.get? n = some a) :
    n < l.length :=
  (List.get?_eq_some.mp h).1

theorem activeOKb_set_ne {trips : List Trip} {j i : Nat} {t' : Trip} (h : j ≠ i) :
    activeOKb (trips.set j t') i = activeOKb trips i := by
  unfold activeOKb
  rw [List.get?_set_ne t' trips h]

theorem activeOKb_set_flags {trips : List Trip} {j : Nat} {told t' : Trip}
    (hget : trips.get? j = some told) (hfin : t'.finished_at = told.finished_at)
    (hab : t'.aborted = told.aborted) (i : Nat) :
    activeOKb (trips.set j t') i = activeOKb trips i := by
  by_cases hij : j = i
  · subst hij
    unfold activeOKb
    rw [List.get?_set_eq_of_lt t' (get?_some_lt hget), hget]
    simp [hfin, hab]
  · exact activeOKb_set_ne hij

theorem activeOKb_append {trips l : List Trip} {i : Nat}
    (h : activeOKb trips i = true) : activeOKb (trips ++ l) i = true := by
  unfold activeOKb at h ⊢
  cases hget : trips.get? i with
  | none => rw [hget] at h; exact absurd h (by simp)
  | some t =>
    rw [List.get?_append (get?_some_lt hget), hget]
    rw [hget] at h
    exact h

theorem inv_entries {s s' : TripManager} (hInv : Inv s)
    (hmap : s'.active_trip_mode = s.active_trip_mode)
    (hok : ∀ e ∈ s.active_trip_mode,
      activeOKb s.trips e.2 = true → activeOKb s'.trips e.2 = true) : Inv s' := by
  obtain ⟨h1, h2, h3⟩ := hInv
  refine ⟨?_, ?_, ?_⟩
  · rw [hmap]; exact h1
  · rw [hmap]; exact h2
  · intro e he
    rw [hmap] at he
    exact hok e he (h3 e he)

theorem inv_remove_set {s s' : TripManager} {a : AgentID} {tid : TripID} {t' : Trip}
    (hInv : Inv s) (hlk : mapLookup s.active_trip_mode a = some tid)
    (hmap : s'.active_trip_mode = mapRemove s.active_trip_mode a)
    (htr : s'.trips = s.trips.set tid t') : Inv s' := by
  obtain ⟨h1, h2, h3⟩ := hInv
  refine ⟨?_, ?_, ?_⟩
  · rw [hmap]
    exact h1.sublist ((mapRemove_sublist _ _).map Prod.fst)
  · rw [hmap]
    exact h2.sublist ((mapRemove_sublist _ _).map Prod.snd)
  · intro e he
    rw [hmap] at he
    have hne : e.2 ≠ tid := snd_ne_of_mem_remove h2 hlk he
    rw [htr, activeOKb_set_ne (fun hh => hne hh.symm)]
    exact h3 e (mem_mapRemove he).1

theorem inv_removeSetShape {s s' : TripManager} {a : AgentID} (hInv : Inv s)
    (hsh : removeSetShape a s s') : Inv s' := by
  obtain ⟨tid, told, t', hlk, hget, hmap, htr, _⟩ := hsh
  exact inv_remove_set hInv hlk hmap htr

theorem inv_setOnlyShape {s s' : TripManager} (hInv : Inv s) (hsh : setOnlyShape s s') :
    Inv s' := by
  obtain ⟨tid, told, t', hget, hmap, htr, _, hfin, hab⟩ := hsh
  refine inv_entries hInv hmap (fun e _ hok => ?_)
  rw [htr, activeOKb_set_flags hget hfin hab]
  exact hok

theorem inv_pureShape {s s' : TripManager} (hInv : Inv s) (hsh : pureShape s s') : Inv s' :=
  inv_entries hInv hsh.1 (fun e _ hok => by rw [hsh.2]; exact hok)

theorem inv_insert {s s' : TripManager} {a : AgentID} {t : TripID}
    (hInv : Inv s) (hlk : mapLookup s.active_trip_mode a = none)
    (hok : activeOKb s.trips t = true) (hfresh : t ∉ s.active_trip_mode.map Prod.snd)
    (hmap : s'.active_trip_mode = (a, t) :: s.active_trip_mode)
    (htr : s'.trips = s.trips) : Inv s' := by
  obtain ⟨h1, h2, h3⟩ := hInv
  refine ⟨?_, ?_, ?_⟩
  · rw [hmap]
    simp only [List.map_cons, List.nodup_cons]
    exact ⟨mapLookup_none_not_mem hlk, h1⟩
  · rw [hmap]
    simp only [List.map_cons, List.nodup_cons]
    exact ⟨hfresh, h2⟩
  · intro e he
    rw [hmap] at he
    rw [htr]
    rcases List.mem_cons.mp he with rfl | hmem
    · exact hok
    · exact h3 e hmem

theorem assignPerson_flags {pid : PersonID} :
    ∀ {ts : List Nat} {trips trips' : List Trip}, assignPerson pid trips ts = some trips' →
      ∀ i, (trips'.get? i).map (fun t => (t.legs, t.finished_at, t.aborted)) =
        (trips.get? i).map (fun t => (t.legs, t.finished_at, t.aborted)) := by
  intro ts
  induction ts with
  | nil =>
    intro trips trips' h i
    unfold assignPerson at h
    cases h
    rfl
  | cons t rest ih =>
    intro trips trips' h i
    unfold assignPerson at h
    split at h
    · exact Option.noConfusion h
    next trip hget =>
      split at h
      · exact Option.noConfusion h
      · have hrec := ih h i
        rw [hrec]
        by_cases hti : t = i
        · subst hti
          rw [List.get?_set_eq_of_lt _ (get?_some_lt hget), hget]
          rfl
        · rw [List.get?_set_ne _ _ hti]

theorem assignPerson_activeOK {pid : PersonID} {ts : List Nat} {trips trips' : List Trip}
    (h : assignPerson pid trips ts = some trips') (i : Nat) :
    activeOKb trips' i = activeOKb trips i := by
  have hf := assignPerson_flags h i
  unfold activeOKb
  cases hg' : trips'.get? i with
  | none =>
    cases hg : trips.get? i with
    | none => rfl
    | some t => rw [hg, hg'] at hf; exact absurd hf (by simp)
  | some t' =>
    cases hg : trips.get? i with
    | none => rw [hg, hg'] at hf; exact absurd hf (by simp)
    | some t =>
      rw [hg, hg'] at hf
      simp only [Option.map_some', Option.some.injEq, Prod.mk.injEq] at hf
      simp [hf.2.1, hf.2.2]

theorem assignPerson_legsAt {pid : PersonID} {ts : List Nat} {trips trips' : List Trip}
    (h : assignPerson pid trips ts = some trips') (i : Nat) :
    (trips'.get? i).map Trip.legs = (trips.get? i).map Trip.legs := by
  have hf := assignPerson_flags h i
  cases hg' : trips'.get? i with
  | none =>
    cases hg : trips.get? i with
    | none => rfl
    | some t => rw [hg, hg'] at hf; exact absurd hf (by simp)
  | some t' =>
    cases hg : trips.get? i with
    | none => rw [hg, hg'] at hf; exact absurd hf (by simp)
    | some t =>
      rw [hg, hg'] at hf
      simp only [Option.map_some', Option.some.injEq, Prod.mk.injEq] at hf
      simp [hf.1]

theorem new_person_shape {s : TripManager} {spec : PersonSpec} {s' : TripManager}
    (h : new_person s spec = some s') :
    s'.active_trip_mode = s.active_trip_mode ∧
      ∃ trips', assignPerson spec.id s.trips spec.trips = some trips' ∧
        s'.trips = trips' := by
  unfold new_person at h
  split at h
  · split at h
    · exact Option.noConfusion h
    next trips' hassign =>
      split at h
      · exact Option.noConfusion h
      · split at h
        · exact Option.noConfusion h
        · cases h
          exact ⟨rfl, trips', hassign, rfl⟩
  · exact Option.noConfusion h

theorem legsAt_removeSet {a : AgentID} {s s' : TripManager} (hsh : removeSetShape a s s')
    (i : Nat) :
    legsAt s' i = legsAt s i ∨ legsAt s' i = (legsAt s i).map List.tail := by
  obtain ⟨tid, told, t', hlk, hget, hmap, htr, hl⟩ := hsh
  by_cases hti : tid = i
  · subst hti
    unfold legsAt
    rw [htr, List.get?_set_eq_of_lt _ (get?_some_lt hget), hget]
    rcases hl with hl | hl
    · exact Or.inl (by simp [hl])
    · exact Or.inr (by simp [hl])
  · unfold legsAt
    rw [htr, List.get?_set_ne _ _ hti]
    exact Or.inl rfl

theorem legsAt_setOnly {s s' : TripManager} (hsh : setOnlyShape s s') (i : Nat) :
    legsAt s' i = legsAt s i ∨ legsAt s' i = (legsAt s i).map List.tail := by
  obtain ⟨tid, told, t', hget, hmap, htr, hl, _, _⟩ := hsh
  by_cases hti : tid = i
  · subst hti
    unfold legsAt
    rw [htr, List.get?_set_eq_of_lt _ (get?_some_lt hget), hget]
    rcases hl with hl | hl
    · exact Or.inl (by simp [hl])
    · exact Or.inr (by simp [hl])
  · unfold legsAt
    rw [htr, List.get?_set_ne _ _ hti]
    exact Or.inl rfl

theorem legsAt_set_same {s s' : TripManager} {tid : Nat} {told t' : Trip}
    (hget : s.trips.get? tid = some told) (htr : s'.trips = s.trips.set tid t')
    (hl : t'.legs = told.legs) (i : Nat) : legsAt s' i = legsAt s i := by
  by_cases hti : tid = i
  · subst hti
    unfold legsAt
    rw [htr, List.get?_set_eq_of_lt _ (get?_some_lt hget), hget]
    simp [hl]
  · unfold legsAt
    rw [htr, List.get?_set_ne _ _ hti]

theorem apply_C8Concl {w : World} {op : Op} {s s' : TripManager}
    (happly : apply w op s = some s') (i : Nat) (hi : i < s.trips.length) :
    C8Concl op s s' i := by
  cases op with
  | newTrip spawned_at start legs =>
    simp only [apply] at happly
    obtain ⟨r, hr, hfr⟩ := Option.map_eq_some'.mp happly
    subst hfr
    obtain ⟨hmap, trip, htr⟩ := new_trip_shape hr
    unfold C8Concl legsAt
    exact Or.inl (by rw [htr, List.get?_append hi])
  | newPerson spec =>
    simp only [apply] at happly
    obtain ⟨hmap, trips', hassign, htr⟩ := new_person_shape happly
    unfold C8Concl legsAt
    rw [htr]
    exact Or.inl (assignPerson_legsAt hassign i)
  | dynamicallyOverrideLegs id legs =>
    simp only [apply] at happly
    obtain ⟨hmap, told, hget, htr⟩ := dynamically_override_legs_shape happly
    unfold C8Concl
    constructor
    · intro hii
      subst hii
      unfold legsAt modeAt
      rw [htr, List.get?_set_eq_of_lt _ (get?_some_lt hget)]
      exact ⟨rfl, rfl⟩
    · intro hii
      unfold legsAt modeAt
      rw [htr, List.get?_set_ne _ _ (fun hh => hii hh.symm)]
      exact ⟨rfl, rfl⟩
  | agentStartingTripLeg agent t =>
    simp only [apply] at happly
    obtain ⟨hlk, hmap, htr⟩ := agent_starting_trip_leg_shape happly
    unfold C8Concl legsAt
    rw [htr]
    exact Or.inl rfl
  | carReachedParkingSpot now car spot =>
    simp only [apply] at happly
    exact legsAt_removeSet (car_reached_shape happly) i
  | pedReachedParkingSpot now ped spot =>
    simp only [apply] at happly
    exact legsAt_removeSet (ped_reached_parking_spot_shape happly) i
  | pedReadyToBike now ped spot =>
    simp only [apply] at happly
    exact legsAt_removeSet (ped_ready_to_bike_shape happly) i
  | bikeReachedEnd now bike bike_rack =>
    simp only [apply] at happly
    exact legsAt_removeSet (bike_reached_end_shape happly) i
  | pedReachedBuilding now ped bldg =>
    simp only [apply] at happly
    exact legsAt_removeSet (ped_reached_building_shape happly) i
  | pedReachedBusStop now ped stop =>
    simp only [apply] at happly
    obtain ⟨r, hr, hfr⟩ := Option.map_eq_some'.mp happly
    subst hfr
    rcases ped_reached_bus_stop_shape hr with hp | hs
    · unfold C8Concl legsAt
      rw [hp.2]
      exact Or.inl rfl
    · exact legsAt_setOnly hs i
  | pedBoardedBus now ped =>
    simp only [apply] at happly
    obtain ⟨r, hr, hfr⟩ := Option.map_eq_some'.mp happly
    subst hfr
    exact legsAt_setOnly (ped_boarded_bus_shape hr) i
  | pedLeftBus now ped =>
    simp only [apply] at happly
    exact legsAt_removeSet (ped_left_bus_shape happly) i
  | pedReachedBorder now ped ix =>
    simp only [apply] at happly
    exact legsAt_removeSet (ped_reached_border_shape happly) i
  | carOrBikeReachedBorder now car ix =>
    simp only [apply] at happly
    exact legsAt_removeSet (car_or_bike_reached_border_shape happly) i
  | abortTripFailedStart id =>
    simp only [apply] at happly
    obtain ⟨hmap, told, hget, htr⟩ := abort_trip_failed_start_shape happly
    unfold C8Concl
    exact Or.inl (legsAt_set_same hget htr rfl i)
  | abortTripImpossibleParking car =>
    simp only [apply] at happly
    exact legsAt_removeSet (abort_trip_impossible_parking_shape happly) i

theorem apply_preserves_Inv {w : World} {op : Op} {s s' : TripManager} (hInv : Inv s)
    (hstart : ∀ a t, op = Op.agentStartingTripLeg a t → startLegOK s t)
    (hfail : ∀ id, op = Op.abortTripFailedStart id →
      id ∉ s.active_trip_mode.map Prod.snd)
    (happly : apply w op s = some s') : Inv s' := by
  cases op with
  | newTrip spawned_at start legs =>
    simp only [apply] at happly
    obtain ⟨r, hr, hfr⟩ := Option.map_eq_some'.mp happly
    subst hfr
    obtain ⟨hmap, trip, htr⟩ := new_trip_shape hr
    exact inv_entries hInv hmap (fun e he hok => by rw [htr]; exact activeOKb_append hok)
  | newPerson spec =>
    simp only [apply] at happly
    obtain ⟨hmap, trips', hassign, htr⟩ := new_person_shape happly
    refine inv_entries hInv hmap (fun e he hok => ?_)
    rw [htr, assignPerson_activeOK hassign]
    exact hok
  | dynamicallyOverrideLegs id legs =>
    simp only [apply] at happly
    obtain ⟨hmap, told, hget, htr⟩ := dynamically_override_legs_shape happly
    refine inv_entries hInv hmap (fun e he hok => ?_)
    rw [htr, @activeOKb_set_flags s.trips id told
      { told with legs := legs, mode := TripMode.Drive } hget rfl rfl]
    exact hok
  | agentStartingTripLeg agent t =>
    simp only [apply] at happly
    obtain ⟨hok, hfresh⟩ := hstart agent t rfl
    obtain ⟨hlk, hmap, htr⟩ := agent_starting_trip_leg_shape happly
    exact inv_insert hInv hlk hok hfresh hmap htr
  | carReachedParkingSpot now car spot =>
    simp only [apply] at happly
    exact inv_removeSetShape hInv (car_reached_shape happly)
  | pedReachedParkingSpot now ped spot =>
    simp only [apply] at happly
    exact inv_removeSetShape hInv (ped_reached_parking_spot_shape happly)
  | pedReadyToBike now ped spot =>
    simp only [apply] at happly
    exact inv_removeSetShape hInv (ped_ready_to_bike_shape happly)
  | bikeReachedEnd now bike bike_rack =>
    simp only [apply] at happly
    exact inv_removeSetShape hInv (bike_reached_end_shape happly)
  | pedReachedBuilding now ped bldg =>
    simp only [apply] at happly
    exact inv_removeSetShape hInv (ped_reached_building_shape happly)
  | pedReachedBusStop now ped stop =>
    simp only [apply] at happly
    obtain ⟨r, hr, hfr⟩ := Option.map_eq_some'.mp happly
    subst hfr
    rcases ped_reached_bus_stop_shape hr with hp | hs
    · exact inv_pureShape hInv hp
    · exact inv_setOnlyShape hInv hs
  | pedBoardedBus now ped =>
    simp only [apply] at happly
    obtain ⟨r, hr, hfr⟩ := Option.map_eq_some'.mp happly
    subst hfr
    exact inv_setOnlyShape hInv (ped_boarded_bus_shape hr)
  | pedLeftBus now ped =>
    simp only [apply] at happly
    exact inv_removeSetShape hInv (ped_left_bus_shape happly)
  | pedReachedBorder now ped i =>
    simp only [apply] at happly
    exact inv_removeSetShape hInv (ped_reached_border_shape happly)
  | carOrBikeReachedBorder now car i =>
    simp only [apply] at happly
    exact inv_removeSetShape hInv (car_or_bike_reached_border_shape happly)
  | abortTripFailedStart id =>
    simp only [apply] at happly
    have hnm := hfail id rfl
    obtain ⟨hmap, told, hget, htr⟩ := abort_trip_failed_start_shape happly
    refine inv_entries hInv hmap (fun e he hok => ?_)
    have hne : e.2 ≠ id := fun hh => hnm (hh ▸ List.mem_map_of_mem Prod.snd he)
    rw [htr, activeOKb_set_ne (fun hh => hne hh.symm)]
    exact hok
  | abortTripImpossibleParking car =>
    simp only [apply] at happly
    exact inv_removeSetShape hInv (abort_trip_impossible_parking_shape happly)

theorem ped_ready_to_bike_no_milestone_event {w : World} {now : Time} {ped : PedestrianID}
    {spot : SidewalkSpot} {s s' : TripManager}
    (h : ped_ready_to_bike w now ped spot s = some s') :
    s'.events = s.events ∨
      ∃ tA mA, s'.events = s.events ++ [Event.TripAborted tA mA] := by
  unfold ped_ready_to_bike at h
  simp only [pushEvent, pushCmd] at h
  repeat' split at h
  all_goals try exact Option.noConfusion h
  all_goals
    first
    | (obtain ⟨_, _, _, he⟩ := setPersonState_fields h
       exact Or.inr ⟨_, _, he⟩)
    | (cases h; exact Or.inl rfl)

theorem ped_boarded_bus_no_event {now : Time} {ped : PedestrianID} {s : TripManager}
    {r : TripManager × TripID} (h : ped_boarded_bus now ped s = some r) :
    r.1.events = s.events := by
  unfold ped_boarded_bus at h
  repeat' split at h
  all_goals try exact Option.noConfusion h
  cases h
  rfl

theorem ped_left_bus_no_event {w : World} {now : Time} {ped : PedestrianID}
    {s s' : TripManager} (h : ped_left_bus w now ped s = some s') :
    s'.events = s.events := by
  unfold ped_left_bus at h
  simp only [pushEvent, pushCmd] at h
  repeat' split at h
  all_goals try exact Option.noConfusion h
  all_goals cases h
  all_goals rfl

theorem ped_reached_building_event_order {w : World} {now : Time} {ped : PedestrianID}
    {bldg : BuildingID} {s s' : TripManager}
    (h : ped_reached_building w now ped bldg s = some s') :
    ∃ tf, s'.events = s.events ++ [Event.PedReachedBuilding ped bldg, tf] := by
  unfold ped_reached_building at h
  simp only [pushEvent, pushCmd] at h
  split at h
  · exact Option.noConfusion h
  next tid hlk =>
    split at h
    · exact Option.noConfusion h
    next trip hget =>
      split at h
      · exact Option.noConfusion h
      next trip1 hassert =>
        split at h
        all_goals try exact Option.noConfusion h
        split at h
        all_goals try exact Option.noConfusion h
        obtain ⟨_, _, _, he⟩ := setPersonState_fields h
        exact ⟨Event.TripFinished trip1.id trip1.mode (now - trip1.spawned_at),
          by rw [he]; simp⟩

theorem assert_walking_leg_mismatch_fatal {t : Trip} {ped p : PedestrianID} {speed : Speed}
    {sp goal : SidewalkSpot} {rest : List TripLeg}
    (hlegs : t.legs = TripLeg.Walk p speed sp :: rest) (hmis : p ≠ ped ∨ goal ≠ sp) :
    t.assert_walking_leg ped goal = none := by
  unfold Trip.assert_walking_leg
  rw [hlegs]
  rcases hmis with hmis | hmis
  · simp [hmis]
  · simp [hmis]

theorem ped_reached_bus_stop_immediate_boarding {w : World} {now : Time}
    {ped : PedestrianID} {stop : BusStopID} {s : TripManager} {tid : TripID} {trip : Trip}
    {speed : Speed} {p2 : PedestrianID} {route : BusRouteID} {stop2 : BusStopID}
    {tl : List TripLeg}
    (hlk : mapLookup s.active_trip_mode (AgentID.Pedestrian ped) = some tid)
    (hget : s.trips.get? tid = some trip)
    (hlegs : trip.legs = TripLeg.Walk ped speed (SidewalkSpot.bus_stop w stop) ::
      TripLeg.RideBus p2 route stop2 :: tl)
    (hwait : w.ped_waiting_for_bus now ped stop route stop2 = true) :
    ∃ s', ped_reached_bus_stop w now ped stop s = some (s', none) ∧
      s'.events = s.events ++ [Event.PedReachedBusStop ped stop route,
        Event.TripPhaseStarting trip.id trip.mode none (TripPhaseType.WaitingForBus route)] ∧
      legsAt s' tid = some (TripLeg.RideBus p2 route stop2 :: tl) := by
  refine ⟨{ s with
      trips := s.trips.set tid { trip with legs := TripLeg.RideBus p2 route stop2 :: tl },
      events := s.events ++ [Event.PedReachedBusStop ped stop route,
        Event.TripPhaseStarting trip.id trip.mode none
          (TripPhaseType.WaitingForBus route)] }, ?_, rfl, ?_⟩
  · have hget2 : s.trips[tid]? = some trip := by
      rw [← List.get?_eq_getElem?]
      exact hget
    unfold ped_reached_bus_stop
    simp [hlk, hget2, hlegs, pushEvent, hwait]
  · unfold legsAt
    simp only []
    rw [List.get?_set_eq_of_lt _ (get?_some_lt hget)]
    rfl

theorem assert_walking_leg_spec {t : Trip} {ped : PedestrianID} {goal : SidewalkSpot}
    {t' : Trip} (h : t.assert_walking_leg ped goal = some t') :
    ∃ speed rest, t.legs = TripLeg.Walk ped speed goal :: rest ∧ t'.legs = rest := by
  unfold Trip.assert_walking_leg at h
  split at h
  case _ p speed spot rest heq =>
    split at h
    next hp =>
      split at h
      next hg =>
        cases h
        exact ⟨speed, rest, by rw [heq, hp, hg], rfl⟩
      · exact Option.noConfusion h
    · exact Option.noConfusion h
  · exact Option.noConfusion h

theorem carReachedSpawnPed_fields {w : World} {now : Time} {spot : ParkingSpot}
    {s1 : TripManager} {tid : TripID} {trip1 : Trip} {s' : TripManager}
    (h : carReachedSpawnPed w now spot s1 tid trip1 = some s') :
    s'.active_trip_mode = s1.active_trip_mode ∧ s'.trips = s1.trips.set tid trip1 ∧
      s'.events = s1.events := by
  unfold carReachedSpawnPed at h
  split at h
  · exact Option.noConfusion h
  · cases h
    exact ⟨rfl, rfl, rfl⟩
  · cases h
    exact ⟨rfl, rfl, rfl⟩

theorem car_reached_parking_spot_milestone {w : World} {now : Time} {car : CarID}
    {spot : ParkingSpot} {s s' : TripManager}
    (h : car_reached_parking_spot w now car spot s = some s') :
    (∃ evs, s'.events = s.events ++ Event.CarReachedParkingSpot car spot :: evs) ∧
    ∃ tid told t' vehicle b rest,
      mapLookup s.active_trip_mode (AgentID.Car car) = some tid ∧
      s.trips.get? tid = some told ∧
      told.legs = TripLeg.Drive vehicle (DrivingGoal.ParkNear b) :: rest ∧
      vehicle.id = car ∧
      s'.active_trip_mode = mapRemove s.active_trip_mode (AgentID.Car car) ∧
      s'.trips = s.trips.set tid t' ∧ t'.legs = rest := by
  unfold car_reached_parking_spot at h
  simp only [pushEvent] at h
  split at h
  · exact Option.noConfusion h
  next tid hlk =>
    split at h
    · exact Option.noConfusion h
    next trip hget =>
      split at h
      case _ vehicle b rest heq =>
        split at h
        next hid =>
          split at h
          case _ ped speed walk_to tl hrest =>
            split at h
            case _ b1 idx b2 =>
              split at h
              next hb =>
                split at h
                next hlen =>
                  split at h
                  · exact Option.noConfusion h
                  next hfin =>
                    obtain ⟨hm, ht, _, he⟩ := setPersonState_fields h
                    constructor
                    · exact ⟨[Event.TripFinished trip.id trip.mode (now - trip.spawned_at)],
                        by rw [he]; simp⟩
                    · exact ⟨tid, trip, _, vehicle, b, _, hlk, hget, heq, hid, hm, ht,
                        rfl⟩
                · exact Option.noConfusion h
              next hb =>
                obtain ⟨hm, ht, he⟩ := carReachedSpawnPed_fields h
                exact ⟨⟨[], by rw [he]⟩, tid, trip, _, vehicle, b, _, hlk, hget, heq,
                  hid, hm, ht, rfl⟩
            next hother =>
              obtain ⟨hm, ht, he⟩ := carReachedSpawnPed_fields h
              exact ⟨⟨[], by rw [he]⟩, tid, trip, _, vehicle, b, _, hlk, hget, heq,
                hid, hm, ht, rfl⟩
          · exact Option.noConfusion h
        · exact Option.noConfusion h
      · exact Option.noConfusion h


theorem ped_reached_parking_spot_milestone {w : World} {now : Time} {ped : PedestrianID}
    {spot : ParkingSpot} {s s' : TripManager}
    (h : ped_reached_parking_spot w now ped spot s = some s') :
    (∃ evs, s'.events = s.events ++ Event.PedReachedParkingSpot ped spot :: evs) ∧
    ∃ tid told t' speed rest,
      mapLookup s.active_trip_mode (AgentID.Pedestrian ped) = some tid ∧
      s.trips.get? tid = some told ∧
      told.legs = TripLeg.Walk ped speed (SidewalkSpot.parking_spot w spot) :: rest ∧
      s'.active_trip_mode = mapRemove s.active_trip_mode (AgentID.Pedestrian ped) ∧
      s'.trips = s.trips.set tid t' ∧ t'.legs = rest := by
  unfold ped_reached_parking_spot at h
  simp only [pushEvent, pushCmd] at h
  split at h
  · exact Option.noConfusion h
  next tid hlk =>
    split at h
    · exact Option.noConfusion h
    next trip hget =>
      split at h
      · exact Option.noConfusion h
      next trip1 hassert =>
        obtain ⟨speed, rest, hlegs, hpop⟩ := assert_walking_leg_spec hassert
        split at h
        case _ vehicle drive_to tl hrest =>
          split at h
          · exact Option.noConfusion h
          next parked_car hcar =>
            split at h
            next hid =>
              split at h
              · obtain ⟨hm, ht, _, he⟩ := setPersonState_fields h
                exact ⟨⟨[Event.TripAborted trip1.id trip1.mode], by rw [he]; simp⟩,
                  tid, trip, _, speed, rest, hlk, hget, hlegs, hm, ht, hpop⟩
              · cases h
                exact ⟨⟨[], rfl⟩, tid, trip, _, speed, rest, hlk, hget, hlegs, rfl, rfl,
                  hpop⟩
            · exact Option.noConfusion h
        · exact Option.noConfusion h

theorem bike_reached_end_milestone {w : World} {now : Time} {bike : CarID}
    {bike_rack : SidewalkSpot} {s s' : TripManager}
    (h : bike_reached_end w now bike bike_rack s = some s') :
    (∃ evs, s'.events =
      s.events ++ Event.BikeStoppedAtSidewalk bike bike_rack.sidewalk_pos.lane :: evs) ∧
    ∃ tid told t' vehicle b rest,
      mapLookup s.active_trip_mode (AgentID.Car bike) = some tid ∧
      s.trips.get? tid = some told ∧
      told.legs = TripLeg.Drive vehicle (DrivingGoal.ParkNear b) :: rest ∧
      vehicle.id = bike ∧
      s'.active_trip_mode = mapRemove s.active_trip_mode (AgentID.Car bike) ∧
      s'.trips = s.trips.set tid t' ∧ t'.legs = rest := by
  unfold bike_reached_end at h
  simp only [pushEvent, pushCmd] at h
  split at h
  · exact Option.noConfusion h
  next tid hlk =>
    split at h
    · exact Option.noConfusion h
    next trip hget =>
      split at h
      case _ vehicle b rest heq =>
        split at h
        next hid =>
          split at h
          · exact Option.noConfusion h
          · cases h
            exact ⟨⟨[], rfl⟩, tid, trip, _, vehicle, b, _, hlk, hget, heq, hid,
              rfl, rfl, rfl⟩
          · cases h
            exact ⟨⟨[], rfl⟩, tid, trip, _, vehicle, b, _, hlk, hget, heq, hid,
              rfl, rfl, rfl⟩
        · exact Option.noConfusion h
      · exact Option.noConfusion h

theorem ped_reached_building_milestone {w : World} {now : Time} {ped : PedestrianID}
    {bldg : BuildingID} {s s' : TripManager}
    (h : ped_reached_building w now ped bldg s = some s') :
    (∃ evs, s'.events = s.events ++ Event.PedReachedBuilding ped bldg :: evs) ∧
    ∃ tid told t' speed,
      mapLookup s.active_trip_mode (AgentID.Pedestrian ped) = some tid ∧
      s.trips.get? tid = some told ∧
      told.legs = [TripLeg.Walk ped speed (SidewalkSpot.building w bldg)] ∧
      s'.active_trip_mode = mapRemove s.active_trip_mode (AgentID.Pedestrian ped) ∧
      s'.trips = s.trips.set tid t' ∧ t'.legs = [] := by
  unfold ped_reached_building at h
  simp only [pushEvent, pushCmd] at h
  split at h
  · exact Option.noConfusion h
  next tid hlk =>
    split at h
    · exact Option.noConfusion h
    next trip hget =>
      split at h
      · exact Option.noConfusion h
      next trip1 hassert =>
        obtain ⟨speed, rest, hlegs, hpop⟩ := assert_walking_leg_spec hassert
        split at h
        next hempty =>
          split at h
          · exact Option.noConfusion h
          next hfin =>
            have hrest : rest = [] := by
              rw [hpop] at hempty
              cases rest
              · rfl
              · simp at hempty
            obtain ⟨hm, ht, _, he⟩ := setPersonState_fields h
            exact ⟨⟨[Event.TripFinished trip1.id trip1.mode (now - trip1.spawned_at)],
                by rw [he]; simp⟩,
              tid, trip, _, speed, hlk, hget, by rw [hlegs, hrest], hm, ht,
              hpop.trans hrest⟩
        · exact Option.noConfusion h

theorem ped_reached_border_milestone {w : World} {now : Time} {ped : PedestrianID}
    {i : IntersectionID} {s s' : TripManager}
    (h : ped_reached_border w now ped i s = some s') :
    (∃ evs, s'.events = s.events ++ Event.PedReachedBorder ped i :: evs) ∧
    ∃ tid told t' speed goal,
      SidewalkSpot.end_at_border w i = some goal ∧
      mapLookup s.active_trip_mode (AgentID.Pedestrian ped) = some tid ∧
      s.trips.get? tid = some told ∧
      told.legs = [TripLeg.Walk ped speed goal] ∧
      s'.active_trip_mode = mapRemove s.active_trip_mode (AgentID.Pedestrian ped) ∧
      s'.trips = s.trips.set tid t' ∧ t'.legs = [] := by
  unfold ped_reached_border at h
  simp only [pushEvent, pushCmd] at h
  split at h
  · exact Option.noConfusion h
  next tid hlk =>
    split at h
    · exact Option.noConfusion h
    next trip hget =>
      split at h
      · exact Option.noConfusion h
      next goal hgoal =>
        split at h
        · exact Option.noConfusion h
        next trip1 hassert =>
          obtain ⟨speed, rest, hlegs, hpop⟩ := assert_walking_leg_spec hassert
          split at h
          next hempty =>
            split at h
            · exact Option.noConfusion h
            next hfin =>
              have hrest : rest = [] := by
                rw [hpop] at hempty
                cases rest
                · rfl
                · simp at hempty
              obtain ⟨hm, ht, _, he⟩ := setPersonState_fields h
              exact ⟨⟨[Event.TripFinished trip1.id trip1.mode (now - trip1.spawned_at)],
                  by rw [he]; simp⟩,
                tid, trip, _, speed, goal, hgoal, hlk, hget, by rw [hlegs, hrest], hm, ht,
                hpop.trans hrest⟩
          · exact Option.noConfusion h

theorem car_or_bike_reached_border_milestone {now : Time} {car : CarID}
    {i : IntersectionID} {s s' : TripManager}
    (h : car_or_bike_reached_border now car i s = some s') :
    (∃ evs, s'.events = s.events ++ Event.CarOrBikeReachedBorder car i :: evs) ∧
    ∃ tid told t' vehicle l,
      mapLookup s.active_trip_mode (AgentID.Car car) = some tid ∧
      s.trips.get? tid = some told ∧
      told.legs = [TripLeg.Drive vehicle (DrivingGoal.Border i l)] ∧
      s'.active_trip_mode = mapRemove s.active_trip_mode (AgentID.Car car) ∧
      s'.trips = s.trips.set tid t' ∧ t'.legs = [] := by
  unfold car_or_bike_reached_border at h
  simp only [pushEvent, pushCmd] at h
  split at h
  · exact Option.noConfusion h
  next tid hlk =>
    split at h
    · exact Option.noConfusion h
    next trip hget =>
      split at h
      case _ vehicle int l rest heq =>
        split at h
        next hi =>
          split at h
          next hempty =>
            split at h
            · exact Option.noConfusion h
            next hfin =>
              have hrest : rest = [] := by
                cases rest
                · rfl
                · simp at hempty
              obtain ⟨hm, ht, _, he⟩ := setPersonState_fields h
              exact ⟨⟨[Event.TripFinished trip.id trip.mode (now - trip.spawned_at)],
                  by rw [he]; simp⟩,
                tid, trip, _, vehicle, l, hlk, hget, by rw [heq, hi, hrest], hm, ht,
                hrest⟩
          · exact Option.noConfusion h
        · exact Option.noConfusion h
      · exact Option.noConfusion h

theorem ped_reached_bus_stop_milestone {w : World} {now : Time} {ped : PedestrianID}
    {stop : BusStopID} {s : TripManager} {r : TripManager × Option BusRouteID}
    (h : ped_reached_bus_stop w now ped stop s = some r) :
    ∃ tid told speed p2 route stop2 rest,
      mapLookup s.active_trip_mode (AgentID.Pedestrian ped) = some tid ∧
      s.trips.get? tid = some told ∧
      told.legs = TripLeg.Walk ped speed (SidewalkSpot.bus_stop w stop) ::
        TripLeg.RideBus p2 route stop2 :: rest ∧
      (∃ evs, r.1.events = s.events ++ Event.PedReachedBusStop ped stop route :: evs) ∧
      (r.2 = none →
        r.1.active_trip_mode = s.active_trip_mode ∧
        r.1.trips = s.trips.set tid { told with legs := told.legs.tail }) ∧
      (∀ rt, r.2 = some rt → rt = route ∧ r.1.trips = s.trips) := by
  unfold ped_reached_bus_stop at h
  simp only [pushEvent] at h
  split at h
  · exact Option.noConfusion h
  next tid hlk =>
    split at h
    · exact Option.noConfusion h
    next trip hget =>
      split at h
      case _ p speed spot rest heq =>
        split at h
        next hp =>
          split at h
          next hsp =>
            split at h
            case _ x0 p2 route stop2 tl =>
              split at h
              next hwait =>
                cases h
                refine ⟨tid, trip, speed, p2, route, stop2, tl, hlk, hget,
                  by rw [heq, hp, hsp],
                  ⟨[Event.TripPhaseStarting trip.id trip.mode none
                    (TripPhaseType.WaitingForBus route)], by simp⟩, ?_, ?_⟩
                · intro _
                  refine ⟨rfl, ?_⟩
                  rw [heq]
                  rfl
                · intro rt hrt
                  exact Option.noConfusion hrt
              next hwait =>
                cases h
                refine ⟨tid, trip, speed, p2, route, stop2, tl, hlk, hget,
                  by rw [heq, hp, hsp],
                  ⟨[Event.TripPhaseStarting trip.id trip.mode none
                    (TripPhaseType.WaitingForBus route)], by simp⟩, ?_, ?_⟩
                · intro hc
                  exact Option.noConfusion hc
                · intro rt hrt
                  cases hrt
                  exact ⟨rfl, rfl⟩
            · exact Option.noConfusion h
          · exact Option.noConfusion h
        · exact Option.noConfusion h
      · exact Option.noConfusion h

end Trips

namespace Spawn

theorem spawn_all_append (w : World) (retry : Bool) :
    ∀ (l1 l2 : List ScheduledTrip) (n : Nat),
      spawn_all w retry (l1 ++ l2) n =
        (spawn_all w retry l1 n).bind (fun r1 =>
          (spawn_all w retry l2 r1.2).map (fun r2 => (r1.1.append r2.1, r2.2))) := by
  intro l1
  induction l1 with
  | nil =>
    intro l2 n
    simp only [List.nil_append, spawn_all, Option.some_bind]
    cases spawn_all w retry l2 n with
    | none => rfl
    | some r => simp [SpawnResult.append, SpawnResult.empty]
  | cons t rest ih =>
    intro l2 n
    simp only [List.cons_append, spawn_all]
    cases spawn_one w retry n t with
    | none => rfl
    | some o =>
      cases o with
      | dropped req =>
        simp only [List.append_eq]
        rw [ih]
        cases hr : spawn_all w retry rest n with
        | none => rfl
        | some r1 =>
          cases hl : spawn_all w retry l2 r1.2 with
          | none => simp [hl]
          | some r2 => simp [hl, SpawnResult.append]
      | spawned reg cmd =>
        simp only [List.append_eq]
        rw [ih]
        cases hr : spawn_all w retry rest (n + 1) with
        | none => rfl
        | some r1 =>
          cases hl : spawn_all w retry l2 r1.2 with
          | none => simp [hl]
          | some r2 => simp [hl, SpawnResult.append]

end Spawn

theorem takeWhile_all {C : Type} (p : C → Bool) :
    ∀ l : List C, (∀ e ∈ l, p e = true) → l.takeWhile p = l := by
  intro l
  induction l with
  | nil => intro _; rfl
  | cons f rest ih =>
    intro hall
    unfold List.takeWhile
    rw [hall f (List.mem_cons_self f rest)]
    rw [ih (fun g hg => hall g (List.mem_cons_of_mem f hg))]

theorem schedInsert_append {C : Type} (e : Time × Nat × C) :
    ∀ q : List (Time × Nat × C), (∀ f ∈ q, f.1 ≤ e.1) → schedInsert e q = q ++ [e] := by
  intro q
  induction q with
  | nil => intro _; rfl
  | cons f rest ih =>
    intro hall
    unfold schedInsert
    rw [if_pos (hall f (List.mem_cons_self f rest))]
    rw [ih (fun g hg => hall g (List.mem_cons_of_mem f hg))]
    rfl

theorem push_batch_const_strong {C : Type} (t : Time) :
    ∀ (cmds : List C) (q : List (Time × Nat × C)) (n : Nat), (∀ f ∈ q, f.1 ≤ t) →
      (((Scheduler.mk q n).push_batch (cmds.map (fun c => (t, c)))).queue.map
        (fun e => e.2.2) = q.map (fun e => e.2.2) ++ cmds) ∧
      (∀ f ∈ ((Scheduler.mk q n).push_batch (cmds.map (fun c => (t, c)))).queue,
        f.1 ≤ t) := by
  intro cmds
  induction cmds with
  | nil =>
    intro q n hall
    exact ⟨by simp [Scheduler.push_batch], hall⟩
  | cons c cs ih =>
    intro q n hall
    have hins : schedInsert (t, n, c) q = q ++ [(t, n, c)] :=
      schedInsert_append (t, n, c) q hall
    have hall' : ∀ f ∈ q ++ [(t, n, c)], f.1 ≤ t := by
      intro f hf
      rcases List.mem_append.mp hf with hf | hf
      · exact hall f hf
      · rcases List.mem_singleton.mp hf with rfl
        exact le_refl t
    have hstep : ((Scheduler.mk q n).push_batch ((c :: cs).map (fun c => (t, c)))) =
        ((Scheduler.mk (q ++ [(t, n, c)]) (n + 1)).push_batch
          (cs.map (fun c => (t, c)))) := by
      simp [Scheduler.push_batch, Scheduler.push, hins]
    rw [hstep]
    obtain ⟨h1, h2⟩ := ih (q ++ [(t, n, c)]) (n + 1) hall'
    refine ⟨?_, h2⟩
    rw [h1]
    simp

theorem scheduler_stable_tiebreak {C : Type} (cmds : List C) (t : Time) :
    ((Scheduler.empty.push_batch (cmds.map (fun c => (t, c)))).pop_due t).1 = cmds := by
  obtain ⟨h1, h2⟩ := push_batch_const_strong t cmds [] 0 (by simp)
  unfold Scheduler.pop_due
  rw [takeWhile_all _ _ (fun e he => by simp [h2 e he])]
  simpa using h1

/-- C3 (amended): `agent_starting_trip_leg` is a fatal assertion when the agent
is already present; and the active-map invariant — every entry references a
distinct, existing, non-finished, non-aborted trip — is preserved by every
`TripManager` operation, provided `agent_starting_trip_leg` is only invoked
for a live trip with no active agent yet (the source's TODO notes this is
unchecked) and `abort_trip_failed_start` only for trips with no active entry:
unlike every other flag-setting operation, `abort_trip_failed_start` sets the
aborted flag without removing any map entry. -/
theorem C3_active_map_invariant :
    (∀ (s : Trips.TripManager) (agent : AgentID) (t : TripID),
      Trips.mapLookup s.active_trip_mode agent ≠ none →
        Trips.agent_starting_trip_leg s agent t = none) ∧
    (∀ (w : Trips.World) (op : Trips.Op) (s s' : Trips.TripManager), Trips.Inv s →
      (∀ a t, op = Trips.Op.agentStartingTripLeg a t → Trips.startLegOK s t) →
      (∀ id, op = Trips.Op.abortTripFailedStart id →
        id ∉ s.active_trip_mode.map Prod.snd) →
      Trips.apply w op s = some s' → Trips.Inv s') := by
  constructor
  · intro s agent t h
    unfold Trips.agent_starting_trip_leg
    cases hl : Trips.mapLookup s.active_trip_mode agent with
    | none => exact absurd hl h
    | some tid => rfl
  · intro w op s s' h1 h2 h3 h4
    exact Trips.apply_preserves_Inv h1 h2 h3 h4

theorem C3_active_map_invariant_witness :
    Trips.agent_starting_trip_leg tmA (AgentID.Pedestrian 0) 0 = none ∧
    (∃ s', Trips.apply failWorld (Trips.Op.pedReachedBuilding 5 0 0) tmA = some s' ∧
      Trips.Inv s') := by
  constructor
  · exact C3_active_map_invariant.1 tmA (AgentID.Pedestrian 0) 0 (by decide)
  · cases hap : Trips.apply failWorld (Trips.Op.pedReachedBuilding 5 0 0) tmA with
    | none => exact absurd hap (by decide)
    | some s' =>
      exact ⟨s', rfl, C3_active_map_invariant.2 failWorld _ tmA s' (by decide)
        (fun a t hcontr => Trips.Op.noConfusion hcontr)
        (fun id hcontr => Trips.Op.noConfusion hcontr) hap⟩

/-- C8: every `TripManager` operation either leaves each pre-existing trip's
leg queue unchanged or removes exactly its front element, except
`dynamically_override_legs`, which replaces the target trip's queue wholesale
and sets its mode to Drive while leaving all other trips untouched. -/
theorem C8_leg_queue_consumption :
    ∀ (w : Trips.World) (op : Trips.Op) (s s' : Trips.TripManager),
      Trips.apply w op s = some s' → ∀ i, i < s.trips.length →
        Trips.C8Concl op s s' i :=
  fun _ _ _ _ happly i hi => Trips.apply_C8Concl happly i hi

theorem C8_leg_queue_consumption_witness :
    ∃ s', Trips.apply failWorld
        (Trips.Op.dynamicallyOverrideLegs 0 [Trips.TripLeg.RideBus 0 7 3]) tmA = some s' ∧
      Trips.C8Concl (Trips.Op.dynamicallyOverrideLegs 0 [Trips.TripLeg.RideBus 0 7 3])
        tmA s' 0 := by
  cases hap : Trips.apply failWorld
      (Trips.Op.dynamicallyOverrideLegs 0 [Trips.TripLeg.RideBus 0 7 3]) tmA with
  | none => exact absurd hap (by decide)
  | some s' =>
    exact ⟨s', rfl,
      C8_leg_queue_consumption failWorld _ tmA s' hap 0 (by decide)⟩

/-- C5 (amended): each of the seven event-emitting milestone methods
(`car_reached_parking_spot`, `ped_reached_parking_spot`, `bike_reached_end`,
`ped_reached_building`, `ped_reached_bus_stop`, `ped_reached_border`,
`car_or_bike_reached_border`) pushes its milestone Event and pops the front
leg only after checking that it matches the expected agent and target — via
`assert_walking_leg` or the built-in leg match, a mismatch being a fatal
panic (`ped_reached_bus_stop` pops on immediate boarding and otherwise defers
the pop to `ped_boarded_bus`); but contrary to the claim as stated,
`ped_ready_to_bike`, `ped_boarded_bus` and `ped_left_bus` pop the front leg
WITHOUT emitting any milestone event (at most a `TripAborted` on a
pathfinding failure). -/
theorem C5_milestone_events :
    (∀ (w : Trips.World) (now : Time) (car : CarID) (spot : ParkingSpot)
       (s s' : Trips.TripManager),
       Trips.car_reached_parking_spot w now car spot s = some s' →
       (∃ evs, s'.events = s.events ++ Trips.Event.CarReachedParkingSpot car spot :: evs) ∧
       ∃ tid told t' vehicle b rest,
         Trips.mapLookup s.active_trip_mode (AgentID.Car car) = some tid ∧
         s.trips.get? tid = some told ∧
         told.legs = Trips.TripLeg.Drive vehicle (Trips.DrivingGoal.ParkNear b) :: rest ∧
         vehicle.id = car ∧
         s'.active_trip_mode = Trips.mapRemove s.active_trip_mode (AgentID.Car car) ∧
         s'.trips = s.trips.set tid t' ∧ t'.legs = rest) ∧
    (∀ (w : Trips.World) (now : Time) (ped : PedestrianID) (spot : ParkingSpot)
       (s s' : Trips.TripManager),
       Trips.ped_reached_parking_spot w now ped spot s = some s' →
       (∃ evs, s'.events = s.events ++ Trips.Event.PedReachedParkingSpot ped spot :: evs) ∧
       ∃ tid told t' speed rest,
         Trips.mapLookup s.active_trip_mode (AgentID.Pedestrian ped) = some tid ∧
         s.trips.get? tid = some told ∧
         told.legs =
           Trips.TripLeg.Walk ped speed (Trips.SidewalkSpot.parking_spot w spot) :: rest ∧
         s'.active_trip_mode = Trips.mapRemove s.active_trip_mode (AgentID.Pedestrian ped) ∧
         s'.trips = s.trips.set tid t' ∧ t'.legs = rest) ∧
    (∀ (w : Trips.World) (now : Time) (bike : CarID) (bike_rack : Trips.SidewalkSpot)
       (s s' : Trips.TripManager),
       Trips.bike_reached_end w now bike bike_rack s = some s' →
       (∃ evs, s'.events = s.events ++
          Trips.Event.BikeStoppedAtSidewalk bike bike_rack.sidewalk_pos.lane :: evs) ∧
       ∃ tid told t' vehicle b rest,
         Trips.mapLookup s.active_trip_mode (AgentID.Car bike) = some tid ∧
         s.trips.get? tid = some told ∧
         told.legs = Trips.TripLeg.Drive vehicle (Trips.DrivingGoal.ParkNear b) :: rest ∧
         vehicle.id = bike ∧
         s'.active_trip_mode = Trips.mapRemove s.active_trip_mode (AgentID.Car bike) ∧
         s'.trips = s.trips.set tid t' ∧ t'.legs = rest) ∧
    (∀ (w : Trips.World) (now : Time) (ped : PedestrianID) (bldg : BuildingID)
       (s s' : Trips.TripManager),
       Trips.ped_reached_building w now ped bldg s = some s' →
       (∃ evs, s'.events = s.events ++ Trips.Event.PedReachedBuilding ped bldg :: evs) ∧
       ∃ tid told t' speed,
         Trips.mapLookup s.active_trip_mode (AgentID.Pedestrian ped) = some tid ∧
         s.trips.get? tid = some told ∧
         told.legs = [Trips.TripLeg.Walk ped speed (Trips.SidewalkSpot.building w bldg)] ∧
         s'.active_trip_mode = Trips.mapRemove s.active_trip_mode (AgentID.Pedestrian ped) ∧
         s'.trips = s.trips.set tid t' ∧ t'.legs = []) ∧
    (∀ (w : Trips.World) (now : Time) (ped : PedestrianID) (stop : BusStopID)
       (s : Trips.TripManager) (r : Trips.TripManager × Option BusRouteID),
       Trips.ped_reached_bus_stop w now ped stop s = some r →
       ∃ tid told speed p2 route stop2 rest,
         Trips.mapLookup s.active_trip_mode (AgentID.Pedestrian ped) = some tid ∧
         s.trips.get? tid = some told ∧
         told.legs = Trips.TripLeg.Walk ped speed (Trips.SidewalkSpot.bus_stop w stop) ::
           Trips.TripLeg.RideBus p2 route stop2 :: rest ∧
         (∃ evs, r.1.events =
            s.events ++ Trips.Event.PedReachedBusStop ped stop route :: evs) ∧
         (r.2 = none →
           r.1.active_trip_mode = s.active_trip_mode ∧
           r.1.trips = s.trips.set tid { told with legs := told.legs.tail }) ∧
         (∀ rt, r.2 = some rt → rt = route ∧ r.1.trips = s.trips)) ∧
    (∀ (w : Trips.World) (now : Time) (ped : PedestrianID) (i : IntersectionID)
       (s s' : Trips.TripManager),
       Trips.ped_reached_border w now ped i s = some s' →
       (∃ evs, s'.events = s.events ++ Trips.Event.PedReachedBorder ped i :: evs) ∧
       ∃ tid told t' speed goal,
         Trips.SidewalkSpot.end_at_border w i = some goal ∧
         Trips.mapLookup s.active_trip_mode (AgentID.Pedestrian ped) = some tid ∧
         s.trips.get? tid = some told ∧
         told.legs = [Trips.TripLeg.Walk ped speed goal] ∧
         s'.active_trip_mode = Trips.mapRemove s.active_trip_mode (AgentID.Pedestrian ped) ∧
         s'.trips = s.trips.set tid t' ∧ t'.legs = []) ∧
    (∀ (now : Time) (car : CarID) (i : IntersectionID) (s s' : Trips.TripManager),
       Trips.car_or_bike_reached_border now car i s = some s' →
       (∃ evs, s'.events = s.events ++ Trips.Event.CarOrBikeReachedBorder car i :: evs) ∧
       ∃ tid told t' vehicle l,
         Trips.mapLookup s.active_trip_mode (AgentID.Car car) = some tid ∧
         s.trips.get? tid = some told ∧
         told.legs = [Trips.TripLeg.Drive vehicle (Trips.DrivingGoal.Border i l)] ∧
         s'.active_trip_mode = Trips.mapRemove s.active_trip_mode (AgentID.Car car) ∧
         s'.trips = s.trips.set tid t' ∧ t'.legs = []) ∧
    (∀ (t : Trips.Trip) (ped p : PedestrianID) (speed : Speed)
       (sp goal : Trips.SidewalkSpot) (rest : List Trips.TripLeg),
       t.legs = Trips.TripLeg.Walk p speed sp :: rest → (p ≠ ped ∨ goal ≠ sp) →
       t.assert_walking_leg ped goal = none) ∧
    (∀ (w : Trips.World) (now : Time) (ped : PedestrianID) (spot : Trips.SidewalkSpot)
       (s s' : Trips.TripManager), Trips.ped_ready_to_bike w now ped spot s = some s' →
       (s'.events = s.events ∨
         ∃ tA mA, s'.events = s.events ++ [Trips.Event.TripAborted tA mA]) ∧
       Trips.removeSetShape (AgentID.Pedestrian ped) s s') ∧
    (∀ (now : Time) (ped : PedestrianID) (s : Trips.TripManager)
       (r : Trips.TripManager × TripID), Trips.ped_boarded_bus now ped s = some r →
       r.1.events = s.events ∧ Trips.setOnlyShape s r.1) ∧
    (∀ (w : Trips.World) (now : Time) (ped : PedestrianID) (s s' : Trips.TripManager),
       Trips.ped_left_bus w now ped s = some s' →
       s'.events = s.events ∧ Trips.removeSetShape (AgentID.Pedestrian ped) s s') := by
  refine ⟨?_, ?_, ?_, ?_, ?_, ?_, ?_, ?_, ?_, ?_, ?_⟩
  · intro w now car spot s s' h
    exact Trips.car_reached_parking_spot_milestone h
  · intro w now ped spot s s' h
    exact Trips.ped_reached_parking_spot_milestone h
  · intro w now bike bike_rack s s' h
    exact Trips.bike_reached_end_milestone h
  · intro w now ped bldg s s' h
    exact Trips.ped_reached_building_milestone h
  · intro w now ped stop s r h
    exact Trips.ped_reached_bus_stop_milestone h
  · intro w now ped i s s' h
    exact Trips.ped_reached_border_milestone h
  · intro now car i s s' h
    exact Trips.car_or_bike_reached_border_milestone h
  · intro t ped p speed sp goal rest hlegs hmis
    exact Trips.assert_walking_leg_mismatch_fatal hlegs hmis
  · intro w now ped spot s s' h
    exact ⟨Trips.ped_ready_to_bike_no_milestone_event h, Trips.ped_ready_to_bike_shape h⟩
  · intro now ped s r h
    exact ⟨Trips.ped_boarded_bus_no_event h, Trips.ped_boarded_bus_shape h⟩
  · intro w now ped s s' h
    exact ⟨Trips.ped_left_bus_no_event h, Trips.ped_left_bus_shape h⟩

theorem C5_milestone_events_witness :
    ((∃ evs, tmEafter.events =
        tmE.events ++ Trips.Event.CarReachedParkingSpot bikeId spotE :: evs) ∧
      ∃ tid told t' vehicle b rest,
        Trips.mapLookup tmE.active_trip_mode (AgentID.Car bikeId) = some tid ∧
        tmE.trips.get? tid = some told ∧
        told.legs = Trips.TripLeg.Drive vehicle (Trips.DrivingGoal.ParkNear b) :: rest ∧
        vehicle.id = bikeId ∧
        tmEafter.active_trip_mode = Trips.mapRemove tmE.active_trip_mode (AgentID.Car bikeId) ∧
        tmEafter.trips = tmE.trips.set tid t' ∧ t'.legs = rest) ∧
    ((∃ evs, tmFafter.events =
        tmF.events ++ Trips.Event.PedReachedParkingSpot 0 spotE :: evs) ∧
      ∃ tid told t' speed rest,
        Trips.mapLookup tmF.active_trip_mode (AgentID.Pedestrian 0) = some tid ∧
        tmF.trips.get? tid = some told ∧
        told.legs =
          Trips.TripLeg.Walk 0 speed (Trips.SidewalkSpot.parking_spot okWorldP spotE) :: rest ∧
        tmFafter.active_trip_mode = Trips.mapRemove tmF.active_trip_mode (AgentID.Pedestrian 0) ∧
        tmFafter.trips = tmF.trips.set tid t' ∧ t'.legs = rest) ∧
    ((∃ evs, tmGafter.events =
        tmE.events ++ Trips.Event.BikeStoppedAtSidewalk bikeId rackSpot.sidewalk_pos.lane :: evs) ∧
      ∃ tid told t' vehicle b rest,
        Trips.mapLookup tmE.active_trip_mode (AgentID.Car bikeId) = some tid ∧
        tmE.trips.get? tid = some told ∧
        told.legs = Trips.TripLeg.Drive vehicle (Trips.DrivingGoal.ParkNear b) :: rest ∧
        vehicle.id = bikeId ∧
        tmGafter.active_trip_mode = Trips.mapRemove tmE.active_trip_mode (AgentID.Car bikeId) ∧
        tmGafter.trips = tmE.trips.set tid t' ∧ t'.legs = rest) ∧
    ((∃ evs, tmAB.events = tmA.events ++ Trips.Event.PedReachedBuilding 0 0 :: evs) ∧
      ∃ tid told t' speed,
        Trips.mapLookup tmA.active_trip_mode (AgentID.Pedestrian 0) = some tid ∧
        tmA.trips.get? tid = some told ∧
        told.legs = [Trips.TripLeg.Walk 0 speed (Trips.SidewalkSpot.building failWorld 0)] ∧
        tmAB.active_trip_mode = Trips.mapRemove tmA.active_trip_mode (AgentID.Pedestrian 0) ∧
        tmAB.trips = tmA.trips.set tid t' ∧ t'.legs = []) ∧
    (∃ tid told speed p2 route stop2 rest,
      Trips.mapLookup tmC9.active_trip_mode (AgentID.Pedestrian 0) = some tid ∧
      tmC9.trips.get? tid = some told ∧
      told.legs = Trips.TripLeg.Walk 0 speed (Trips.SidewalkSpot.bus_stop okWorld 3) ::
        Trips.TripLeg.RideBus p2 route stop2 :: rest ∧
      (∃ evs, busStopRes.1.events =
         tmC9.events ++ Trips.Event.PedReachedBusStop 0 3 route :: evs) ∧
      (busStopRes.2 = none →
        busStopRes.1.active_trip_mode = tmC9.active_trip_mode ∧
        busStopRes.1.trips = tmC9.trips.set tid { told with legs := told.legs.tail }) ∧
      (∀ rt, busStopRes.2 = some rt → rt = route ∧ busStopRes.1.trips = tmC9.trips)) ∧
    ((∃ evs, tmHafter.events = tmH.events ++ Trips.Event.PedReachedBorder 0 2 :: evs) ∧
      ∃ tid told t' speed goal,
        Trips.SidewalkSpot.end_at_border okWorld 2 = some goal ∧
        Trips.mapLookup tmH.active_trip_mode (AgentID.Pedestrian 0) = some tid ∧
        tmH.trips.get? tid = some told ∧
        told.legs = [Trips.TripLeg.Walk 0 speed goal] ∧
        tmHafter.active_trip_mode = Trips.mapRemove tmH.active_trip_mode (AgentID.Pedestrian 0) ∧
        tmHafter.trips = tmH.trips.set tid t' ∧ t'.legs = []) ∧
    ((∃ evs, tmIafter.events = tmI.events ++ Trips.Event.CarOrBikeReachedBorder carId2 2 :: evs) ∧
      ∃ tid told t' vehicle l,
        Trips.mapLookup tmI.active_trip_mode (AgentID.Car carId2) = some tid ∧
        tmI.trips.get? tid = some told ∧
        told.legs = [Trips.TripLeg.Drive vehicle (Trips.DrivingGoal.Border 2 l)] ∧
        tmIafter.active_trip_mode = Trips.mapRemove tmI.active_trip_mode (AgentID.Car carId2) ∧
        tmIafter.trips = tmI.trips.set tid t' ∧ t'.legs = []) ∧
    tripA.assert_walking_leg 1 walkSpot = none ∧
    ((tmBafter.events = tmB.events ∨
       ∃ tA mA, tmBafter.events = tmB.events ++ [Trips.Event.TripAborted tA mA]) ∧
      Trips.removeSetShape (AgentID.Pedestrian 0) tmB tmBafter) ∧
    (((Trips.ped_boarded_bus 5 0 tmC9).getD (Trips.TripManager.new, 0)).1.events =
        tmC9.events ∧
      Trips.setOnlyShape tmC9
        ((Trips.ped_boarded_bus 5 0 tmC9).getD (Trips.TripManager.new, 0)).1) ∧
    (((Trips.ped_left_bus failWorld 5 0 tmD).getD Trips.TripManager.new).events =
        tmD.events ∧
      Trips.removeSetShape (AgentID.Pedestrian 0) tmD
        ((Trips.ped_left_bus failWorld 5 0 tmD).getD Trips.TripManager.new)) := by
  refine ⟨?_, ?_, ?_, ?_, ?_, ?_, ?_, ?_, ?_, ?_, ?_⟩
  · exact C5_milestone_events.1 okWorld 5 bikeId spotE tmE tmEafter (by decide)
  · exact C5_milestone_events.2.1 okWorldP 5 0 spotE tmF tmFafter (by decide)
  · exact C5_milestone_events.2.2.1 okWorld 5 bikeId rackSpot tmE tmGafter (by decide)
  · exact C5_milestone_events.2.2.2.1 failWorld 5 0 0 tmA tmAB (by decide)
  · exact C5_milestone_events.2.2.2.2.1 okWorld 5 0 3 tmC9 busStopRes (by decide)
  · exact C5_milestone_events.2.2.2.2.2.1 okWorld 5 0 2 tmH tmHafter (by decide)
  · exact C5_milestone_events.2.2.2.2.2.2.1 5 carId2 2 tmI tmIafter (by decide)
  · exact C5_milestone_events.2.2.2.2.2.2.2.1 tripA 1 0 1 walkSpot walkSpot [] rfl (Or.inl (by decide))
  · exact C5_milestone_events.2.2.2.2.2.2.2.2.1 okWorld 5 0 rackSpot tmB tmBafter (by decide)
  · exact C5_milestone_events.2.2.2.2.2.2.2.2.2.1 5 0 tmC9 _ (by decide)
  · exact C5_milestone_events.2.2.2.2.2.2.2.2.2.2 failWorld 5 0 tmD _ (by decide)

/-- C9 (amended): when the transit boarding check reports a bus already
present, `ped_reached_bus_stop` returns `none` and pops the pedestrian's walk
leg — but a `TripPhaseStarting(.., WaitingForBus)` event is recorded
unconditionally before the boarding check, so a "waiting for bus" phase is
logged even on immediate boarding. -/
theorem C9_immediate_boarding :
    ∀ (w : Trips.World) (now : Time) (ped : PedestrianID) (stop : BusStopID)
      (s : Trips.TripManager) (tid : TripID) (trip : Trips.Trip) (speed : Speed)
      (p2 : PedestrianID) (route : BusRouteID) (stop2 : BusStopID)
      (tl : List Trips.TripLeg),
      Trips.mapLookup s.active_trip_mode (AgentID.Pedestrian ped) = some tid →
      s.trips.get? tid = some trip →
      trip.legs = Trips.TripLeg.Walk ped speed (Trips.SidewalkSpot.bus_stop w stop) ::
        Trips.TripLeg.RideBus p2 route stop2 :: tl →
      w.ped_waiting_for_bus now ped stop route stop2 = true →
      ∃ s', Trips.ped_reached_bus_stop w now ped stop s = some (s', none) ∧
        s'.events = s.events ++ [Trips.Event.PedReachedBusStop ped stop route,
          Trips.Event.TripPhaseStarting trip.id trip.mode none
            (Trips.TripPhaseType.WaitingForBus route)] ∧
        Trips.legsAt s' tid = some (Trips.TripLeg.RideBus p2 route stop2 :: tl) :=
  fun _ _ _ _ _ _ _ _ _ _ _ _ hlk hget hlegs hwait =>
    Trips.ped_reached_bus_stop_immediate_boarding hlk hget hlegs hwait

theorem C9_immediate_boarding_witness :
    ∃ s', Trips.ped_reached_bus_stop okWorld 5 0 3 tmC9 = some (s', none) ∧
      s'.events = tmC9.events ++ [Trips.Event.PedReachedBusStop 0 3 7,
        Trips.Event.TripPhaseStarting tripC9.id tripC9.mode none
          (Trips.TripPhaseType.WaitingForBus 7)] ∧
      Trips.legsAt s' 0 = some (Trips.TripLeg.RideBus 0 7 9 ::
        [Trips.TripLeg.Walk 0 1 walkSpot]) :=
  C9_immediate_boarding okWorld 5 0 3 tmC9 0 tripC9 1 0 7 9
    [Trips.TripLeg.Walk 0 1 walkSpot] (by decide) (by decide) rfl rfl

/-- C6: `schedule_trip` never consults pathfinding (its result is invariant
under any change of the world's `pathfind` component), the first
`UsingParkedCar` call records the resolved vehicle in the claim set, and a
second call whose spec resolves to the same vehicle identity panics. -/
theorem C6_double_claim_fails_fast :
    (∀ (w : Spawn.World) (f : Spawn.PathRequest → Option MapPath) (s : Spawn.TripSpawner)
      (st : Time) (p : Option PedestrianID) (c : Option CarID) (spec : Spawn.TripSpec),
      Spawn.schedule_trip { w with pathfind := f } s st p c spec =
        Spawn.schedule_trip w s st p c spec) ∧
    (∀ (w : Spawn.World) (s : Spawn.TripSpawner) (st1 st2 : Time)
      (p1 p2 : Option PedestrianID) (c1 c2 : Option CarID)
      (start1 start2 : Spawn.SidewalkSpot) (spot1 spot2 : ParkingSpot)
      (goal1 goal2 : Spawn.TripEndpoint) (sp1 sp2 : Speed) (pc1 pc2 : ParkedCar),
      w.get_car_at_spot spot1 = some pc1 → w.get_car_at_spot spot2 = some pc2 →
      pc2.vehicle.id = pc1.vehicle.id → pc1.vehicle.id ∉ s.parked_cars_claimed →
      ∃ s1, Spawn.schedule_trip w s st1 p1 c1
          (Spawn.TripSpec.UsingParkedCar start1 spot1 goal1 sp1) = some s1 ∧
        pc1.vehicle.id ∈ s1.parked_cars_claimed ∧
        Spawn.schedule_trip w s1 st2 p2 c2
          (Spawn.TripSpec.UsingParkedCar start2 spot2 goal2 sp2) = none) := by
  constructor
  · intro w f s st p c spec
    cases spec <;> rfl
  · intro w s st1 st2 p1 p2 c1 c2 start1 start2 spot1 spot2 goal1 goal2 sp1 sp2
      pc1 pc2 h1 h2 hid hnc
    refine ⟨{ s with parked_cars_claimed := pc1.vehicle.id :: s.parked_cars_claimed,
                     trips := s.trips ++ [{ start_time := st1, ped_id := p1, car_id := c1,
                                            spec := Spawn.TripSpec.UsingParkedCar start1
                                              spot1 goal1 sp1 }] }, ?_, ?_, ?_⟩
    · unfold Spawn.schedule_trip
      simp [h1, hnc]
    · exact List.mem_cons_self _ _
    · unfold Spawn.schedule_trip
      simp [h2, hid]

theorem C6_double_claim_fails_fast_witness :
    ∃ s1, Spawn.schedule_trip spawnWorldC6 Spawn.TripSpawner.new 0 (some 0) none
        (Spawn.TripSpec.UsingParkedCar bldgSpotA (ParkingSpot.Onstreet 2 0)
          (Spawn.TripEndpoint.Building 8) 1) = some s1 ∧
      pcA.vehicle.id ∈ s1.parked_cars_claimed ∧
      Spawn.schedule_trip spawnWorldC6 s1 1 (some 1) none
        (Spawn.TripSpec.UsingParkedCar bldgSpotA (ParkingSpot.Onstreet 2 1)
          (Spawn.TripEndpoint.Building 9) 1) = none :=
  C6_double_claim_fails_fast.2 spawnWorldC6 Spawn.TripSpawner.new 0 1 (some 0) (some 1)
    none none bldgSpotA bldgSpotA (ParkingSpot.Onstreet 2 0) (ParkingSpot.Onstreet 2 1)
    (Spawn.TripEndpoint.Building 8) (Spawn.TripEndpoint.Building 9) 1 1 pcA pcA
    (by decide) (by decide) rfl (by decide)

/-- C7: in `spawn_all`, a buffered trip whose first path request fails to
resolve contributes exactly one recorded warning and nothing else — no
`new_trip` registration, no scheduler push, no trip-count change, no panic —
and the surrounding batch is processed exactly as if the trip were processed
alone in sequence (the append law). -/
theorem C7_unreachable_trip_dropped :
    ∀ (w : Spawn.World) (retry : Bool) (t : Spawn.ScheduledTrip) (req : Spawn.PathRequest),
      Spawn.get_pathfinding_request w t.spec = some req → w.pathfind req = none →
      (∀ n, Spawn.spawn_one w retry n t = some (Spawn.SpawnOutcome.dropped req)) ∧
      (∀ (post : List Spawn.ScheduledTrip) (n : Nat),
        Spawn.spawn_all w retry (t :: post) n =
          (Spawn.spawn_all w retry post n).map (fun r =>
            ({ warnings := req :: r.1.warnings, new_trips := r.1.new_trips,
               commands := r.1.commands }, r.2))) ∧
      (∀ (l1 l2 : List Spawn.ScheduledTrip) (n : Nat),
        Spawn.spawn_all w retry (l1 ++ l2) n =
          (Spawn.spawn_all w retry l1 n).bind (fun r1 =>
            (Spawn.spawn_all w retry l2 r1.2).map (fun r2 =>
              (r1.1.append r2.1, r2.2)))) := by
  intro w retry t req hreq hpf
  have hone : ∀ n, Spawn.spawn_one w retry n t = some (Spawn.SpawnOutcome.dropped req) := by
    intro n
    unfold Spawn.spawn_one Spawn.spawnStep
    rw [hreq]
    simp [hpf]
  refine ⟨hone, ?_, Spawn.spawn_all_append w retry⟩
  intro post n
  rw [Spawn.spawn_all, hone n]

theorem C7_unreachable_trip_dropped_witness :
    Spawn.spawn_one spawnWorldC7 true 0 badTripC7 =
      some (Spawn.SpawnOutcome.dropped reqC7) ∧
    Spawn.spawn_all spawnWorldC7 true (badTripC7 :: [goodTripC7]) 0 =
      (Spawn.spawn_all spawnWorldC7 true [goodTripC7] 0).map (fun r =>
        ({ warnings := reqC7 :: r.1.warnings, new_trips := r.1.new_trips,
           commands := r.1.commands }, r.2)) ∧
    Spawn.spawn_all spawnWorldC7 true ([goodTripC7] ++ [badTripC7]) 0 =
      (Spawn.spawn_all spawnWorldC7 true [goodTripC7] 0).bind (fun r1 =>
        (Spawn.spawn_all spawnWorldC7 true [badTripC7] r1.2).map (fun r2 =>
          (r1.1.append r2.1, r2.2))) :=
  ⟨(C7_unreachable_trip_dropped spawnWorldC7 true badTripC7 reqC7 (by decide)
      (by decide)).1 0,
   (C7_unreachable_trip_dropped spawnWorldC7 true badTripC7 reqC7 (by decide)
      (by decide)).2.1 [goodTripC7] 0,
   (C7_unreachable_trip_dropped spawnWorldC7 true badTripC7 reqC7 (by decide)
      (by decide)).2.2 [goodTripC7] [badTripC7] 0⟩

/-- C4: the parallel pathfinding batch (modelled from the spec as the
order-preserving `parallelize`) is rejoined and applied in original
submission order (`spawn_all` splits sequentially over batch concatenation),
the Scheduler delivers same-timestamp commands in stable insertion-sequence
order, and the core pipeline is a pure function of the demand: equal inputs
give identical outputs. -/
theorem C4_deterministic_order :
    (∀ (f : Spawn.ScheduledTrip →
        Spawn.ScheduledTrip × Option Spawn.PathRequest × Option MapPath)
      (xs ys : List Spawn.ScheduledTrip),
      Spawn.parallelize f (xs ++ ys) =
        Spawn.parallelize f xs ++ Spawn.parallelize f ys) ∧
    (∀ (w : Spawn.World) (retry : Bool) (l1 l2 : List Spawn.ScheduledTrip) (n : Nat),
      Spawn.spawn_all w retry (l1 ++ l2) n =
        (Spawn.spawn_all w retry l1 n).bind (fun r1 =>
          (Spawn.spawn_all w retry l2 r1.2).map (fun r2 =>
            (r1.1.append r2.1, r2.2)))) ∧
    (∀ (C : Type) (cmds : List C) (t : Time),
      ((Scheduler.empty.push_batch (cmds.map (fun c => (t, c)))).pop_due t).1 = cmds) ∧
    (∀ (w : Spawn.World) (retry : Bool) (horizon : Time)
      (d1 d2 : List Spawn.ScheduledTrip), d1 = d2 →
      run_core w retry horizon d1 = run_core w retry horizon d2) :=
  ⟨fun f xs ys => List.map_append f xs ys,
   fun w retry => Spawn.spawn_all_append w retry,
   fun _ cmds t => scheduler_stable_tiebreak cmds t,
   fun _ _ _ _ _ he => by rw [he]⟩

theorem C4_deterministic_order_witness :
    ((Scheduler.empty.push_batch ([10, 20, 30].map (fun c => ((5 : Time), c)))).pop_due 5).1 =
      [10, 20, 30] ∧
    run_core spawnWorldC7 true 9 [goodTripC7, badTripC7] =
      run_core spawnWorldC7 true 9 [goodTripC7, badTripC7] :=
  ⟨C4_deterministic_order.2.2.1 Nat [10, 20, 30] 5,
   C4_deterministic_order.2.2.2 spawnWorldC7 true 9 [goodTripC7, badTripC7]
     [goodTripC7, badTripC7] rfl⟩
